import Mathlib

set_option maxRecDepth 4000

/-!
Verification development for generate_interactive_graph.py, a script that
converts a DOT graph description into an interactive HTML visualization.
Python strings are modelled as lists of characters, Python dictionaries as
association lists whose lookup takes the last binding, and the fallible
parts of the pipeline as Option-valued functions where the value none marks
the exception path.
-/

/-- Shorthand turning a Lean string literal into the character-list
representation of Python strings used throughout this file. -/
def sl (s : String) : List Char := s.toList

/-- Python str.lstrip(chars): remove every leading character that belongs to
the character set cs. -/
def pyLStrip (cs : List Char) : List Char → List Char
  | [] => []
  | c :: rest => if cs.contains c then pyLStrip cs rest else c :: rest

/-- Python str.strip(chars): remove every leading and every trailing
character that belongs to the character set cs (first from the left, then
from the right, which is equivalent to Python doing both ends). -/
def pyStrip (cs : List Char) (s : List Char) : List Char :=
  (pyLStrip cs ((pyLStrip cs s).reverse)).reverse

/-- The character set passed to strip by the source, a single quote mark. -/
def quoteChars : List Char := ['"']

/-- value.strip of a quote mark, the operation at the heart of
clean_attribute (line 70) and of the subgraph name handling (lines 40, 47
and 49 of the source). -/
def pyStripQuote (s : List Char) : List Char := pyStrip quoteChars s

/-- A Python value as it can reach clean_attribute: a string, None, an
integer, or a list of strings (the list-valued label artifact the source
guards against at line 45). -/
inductive PyVal where
  | pstr (s : List Char)
  | pyNone
  | pint (n : Int)
  | plist (xs : List (List Char))
deriving DecidableEq

/-- True exactly on the string values, mirroring isinstance(value, str). -/
def isPStr : PyVal → Bool
  | .pstr _ => true
  | _ => false

/-- clean_attribute (source lines 59 to 71): if the value is a string,
return value.strip of the quote mark, otherwise return the value. -/
def clean_attribute : PyVal → PyVal
  | .pstr s => .pstr (pyStripQuote s)
  | v => v

/-- Python s.startswith of a single quote character. -/
def startsWithQuoteB (s : List Char) : Bool := s.head? == some '"'

/-- Python s.endswith of a single quote character. -/
def endsWithQuoteB (s : List Char) : Bool := s.getLast? == some '"'

/-- Source lines 49 to 52: a subgraph node name is stripped of quote marks,
and then, when the result still both starts and ends with a quote mark, its
first and last characters are sliced away. -/
def normalizeSubgraphNodeName (s : List Char) : List Char :=
  let t := pyStripQuote s
  if startsWithQuoteB t && endsWithQuoteB t then (t.drop 1).dropLast else t

/-- A cluster label as pydot get_label can hand it over: a plain string, or
the list-of-strings artifact unwrapped at lines 45 to 46 of the source. -/
inductive Lbl where
  | lstr (s : List Char)
  | llist (xs : List (List Char))
deriving DecidableEq

/-- A pydot graph or subgraph: its name, its label attribute when present,
the node names written directly in it, and the subgraphs written directly
in it. -/
inductive SG where
  | mk (name : List Char) (label : Option Lbl) (nodes : List (List Char)) (subs : List SG)

/-- The name of a graph object. -/
def SG.name : SG → List Char
  | .mk n _ _ _ => n

/-- The label attribute of a graph object, when present. -/
def SG.label : SG → Option Lbl
  | .mk _ l _ _ => l

/-- The node names directly contained in a graph object, what pydot
get_nodes returns for it. -/
def SG.nodes : SG → List (List Char)
  | .mk _ _ ns _ => ns

/-- The subgraphs directly contained in a graph object, what pydot
get_subgraphs returns for it. -/
def SG.subs : SG → List SG
  | .mk _ _ _ ss => ss

/-- Line 42 of the source: the stripped subgraph name is kept only when it
starts with the marker cluster underscore. -/
def isClusterName (s : List Char) : Bool := List.isPrefixOf (sl ("cluster_")) s

/-- Source lines 43 to 47: unwrap a list-valued label to its first element
(none models the IndexError raised on an empty list, which the enclosing
try block turns into an exit), then take label.strip of the quote mark when
the unwrapped label is truthy, and fall back to the cluster name otherwise
(Python None and the empty string are both falsy). -/
def resolveLabel : Option Lbl → List Char → Option (List Char)
  | none, cname => some cname
  | some (.lstr x), cname => some (if x.isEmpty then cname else pyStripQuote x)
  | some (.llist xs), cname =>
      match xs.head? with
      | none => none
      | some x => some (if x.isEmpty then cname else pyStripQuote x)

/-- One iteration of the subgraph loop of parse_dot_file (lines 39 to 53):
a kept cluster appends one binding per direct node to the cluster
dictionary, a subgraph whose stripped name lacks the marker contributes
nothing, and a label error poisons the whole parse. The dictionary is
modelled as an association list whose lookup takes the last binding. -/
def subgraphClustersStep (acc : Option (List (List Char × List Char))) (sub : SG) :
    Option (List (List Char × List Char)) :=
  acc.bind fun m =>
    let cname := pyStripQuote sub.name
    if isClusterName cname then
      (resolveLabel sub.label cname).map fun lbl =>
        sub.nodes.foldl (fun m2 n => m2 ++ [(normalizeSubgraphNodeName n, lbl)]) m
    else some m

/-- The cluster dictionary parse_dot_file builds (lines 38 to 53): the loop
runs over the subgraphs directly contained in the parsed graph, exactly as
pydot get_subgraphs yields them. -/
def subgraphClusters (g : SG) : Option (List (List Char × List Char)) :=
  g.subs.foldl subgraphClustersStep (some [])

/-- The contribution of a single subgraph to the cluster dictionary, stated
directly: the bindings of its direct nodes when it is a kept cluster, the
empty contribution otherwise, and none on a label error. -/
def clusterPairsOf (sub : SG) : Option (List (List Char × List Char)) :=
  let cname := pyStripQuote sub.name
  if isClusterName cname then
    (resolveLabel sub.label cname).map fun lbl =>
      sub.nodes.map fun n => (normalizeSubgraphNodeName n, lbl)
  else some []

/-- The concatenated contributions of a list of subgraphs, none as soon
as one of them errors. -/
def directClusterPairsList : List SG → Option (List (List Char × List Char))
  | [] => some []
  | sub :: r =>
      match clusterPairsOf sub, directClusterPairsList r with
      | some ps, some rest => some (ps ++ rest)
      | _, _ => none

/-- The cluster dictionary in closed form: the concatenated contributions
of the directly contained subgraphs, none as soon as one of them errors. -/
def directClusterPairs (g : SG) : Option (List (List Char × List Char)) :=
  directClusterPairsList g.subs

mutual
/-- Every subgraph reachable from a graph object at any nesting depth. -/
def SG.allSubs : SG → List SG
  | .mk _ _ _ subs => subs ++ allSubsList subs

/-- Every subgraph reachable from any graph object of a list. -/
def allSubsList : List SG → List SG
  | [] => []
  | s :: r => s.allSubs ++ allSubsList r
end

mutual
/-- Every node name nested in a graph object at any nesting depth. -/
def SG.allNodes : SG → List (List Char)
  | .mk _ _ nodes subs => nodes ++ allNodesList subs

/-- Every node name nested in any graph object of a list. -/
def allNodesList : List SG → List (List Char)
  | [] => []
  | s :: r => s.allNodes ++ allNodesList r
end

/-- Written from the words of the claim, as the comparison point for the
code: a cluster map built by recursively scanning all subgraph constructs
at any nesting depth, keeping only groups whose identifier carries the
cluster marker, and mapping every node nested in such a group at any depth
to the group's resolved display label. -/
def specClusterMapRecursive (g : SG) : List (List Char × List Char) :=
  (SG.allSubs g).foldl
    (fun m sub =>
      let cname := pyStripQuote sub.name
      if isClusterName cname then
        let lbl := (resolveLabel sub.label cname).getD cname
        (SG.allNodes sub).foldl
          (fun m2 n => m2 ++ [(normalizeSubgraphNodeName n, lbl)]) m
      else m)
    []

/-- Python dictionary lookup over an association list: the binding written
last wins, none when the key is absent. -/
def pyDictGet {β : Type} : List (List Char × β) → List Char → Option β
  | [], _ => none
  | p :: r, k =>
      match pyDictGet r k with
      | some v => some v
      | none => if p.1 == k then some p.2 else none

/-- The whitespace characters Python float conversion strips from both ends
of its argument. -/
def wsChars : List Char := [' ', '\t', '\n', '\r', '\x0b', '\x0c']

/-- The numeric value of a run of decimal digit characters. -/
def digitsVal (ds : List Char) : Nat := ds.foldl (fun a c => 10 * a + (c.toNat - 48)) 0

/-- A nonempty all-digit run parsed as a natural number, none otherwise. -/
def parseExpNat (r : List Char) : Option Nat :=
  if !r.isEmpty && r.all Char.isDigit then some (digitsVal r) else none

/-- The exponent written after the letter e of a float literal: an optional
sign followed by a nonempty digit run that exhausts the input. -/
def parseExpDigits : List Char → Option Int
  | '+' :: r => (parseExpNat r).map Int.ofNat
  | '-' :: r => (parseExpNat r).map fun n => -(n : Int)
  | r => (parseExpNat r).map Int.ofNat

/-- The value of an unsigned float literal split into its integer digits,
its fraction digits and the remaining input: the literal is valid when at
least one digit is present and the remainder is empty or a well-formed
exponent part. -/
def mkFloatVal (ip fp rest : List Char) : Option ℚ :=
  if ip.isEmpty && fp.isEmpty then none
  else
    let mant : ℚ := (digitsVal ip : ℚ) + (digitsVal fp : ℚ) / ((10 : ℚ) ^ fp.length)
    match rest with
    | [] => some mant
    | 'e' :: r => (parseExpDigits r).map fun ex => mant * (10 : ℚ) ^ ex
    | 'E' :: r => (parseExpDigits r).map fun ex => mant * (10 : ℚ) ^ ex
    | _ => none

/-- An unsigned float literal: integer digits, then an optional point with
fraction digits, then an optional exponent part. -/
def pyFloatCore (t : List Char) : Option ℚ :=
  let ip := t.takeWhile Char.isDigit
  let r1 := t.dropWhile Char.isDigit
  match r1 with
  | '.' :: r2 => mkFloatVal ip (r2.takeWhile Char.isDigit) (r2.dropWhile Char.isDigit)
  | _ => mkFloatVal ip [] r1

/-- Python float conversion of a string, modelled over the exact rationals
for the finite decimal literals (optional surrounding whitespace, optional
sign, digits with optional fraction and exponent). The named special values
inf and nan and the underscore digit separators are outside the model; the
source only ever relies on conversion succeeding on decimal literals or
raising ValueError. None models the ValueError path. -/
def pyFloat (s : List Char) : Option ℚ :=
  let t := pyStrip wsChars s
  match t with
  | '+' :: r => pyFloatCore r
  | '-' :: r => (pyFloatCore r).map Neg.neg
  | r => pyFloatCore r

/-- Python int truncation of a rational toward zero, as int applied to a
float does. -/
def intTrunc (q : ℚ) : Int := q.num.tdiv (q.den : Int)

/-- The visual node handed to net.add_node (source lines 153 to 162). -/
structure VisNode where
  id : List Char
  label : List Char
  title : List Char
  url : List Char
  color : List Char
  shape : List Char
  fontFace : List Char
  fontSize : Int
  group : List Char
deriving DecidableEq

/-- The visual edge handed to net.add_edge (source lines 180 to 189). The
source also computes a label and a url for each edge but passes neither to
add_edge, so they are no part of the resulting edge. -/
structure VisEdge where
  source : List Char
  target : List Char
  title : List Char
  color : List Char
  arrows : List Char
  width : ℚ
  dashes : Bool
  smooth : Bool
deriving DecidableEq

/-- The fixed default fill color of source lines 136 and 148. -/
def defaultFillColor : List Char := sl ("#97C2FC")

/-- The character set of label.strip at source line 155, the angle bracket
decoration of HTML-like labels. -/
def angleChars : List Char := ['<', '>']

/-- The node branch of create_interactive_graph (source lines 131 to 162):
each attribute is read from the node data with a default, cleaned where the
source cleans it, and packed into the visual node. The shape comparison at
line 137 reads the raw attribute without cleaning it. -/
def buildNode (clusters : List (List Char × List Char)) (nodeName : List Char)
    (data : List (List Char × List Char)) : VisNode :=
  let label := pyStripQuote ((pyDictGet data (sl ("label"))).getD nodeName)
  let title := pyStripQuote ((pyDictGet data (sl ("tooltip"))).getD [])
  let url := pyStripQuote ((pyDictGet data (sl ("URL"))).getD [])
  let color := pyStripQuote ((pyDictGet data (sl ("fillcolor"))).getD defaultFillColor)
  let shape := if pyDictGet data (sl ("shape")) == some (sl ("box"))
    then sl ("box") else sl ("ellipse")
  let font := pyStripQuote ((pyDictGet data (sl ("fontname"))).getD (sl ("Helvetica")))
  let fontsize := pyStripQuote ((pyDictGet data (sl ("fontsize"))).getD (sl ("14")))
  let size : Int :=
    match pyFloat fontsize with
    | some q => intTrunc q
    | none => 14
  let nodeColor := if (pyDictGet data (sl ("fillcolor"))).isSome then color else defaultFillColor
  let group := (pyDictGet clusters nodeName).getD (sl ("default"))
  { id := nodeName, label := pyStrip angleChars label, title := title, url := url,
    color := nodeColor, shape := shape, fontFace := font, fontSize := size, group := group }

/-- The edge branch of create_interactive_graph (source lines 165 to 189):
every attribute read from the edge data is cleaned before use, the penwidth
is converted with float and falls back to one on ValueError, the dash flag
compares the cleaned style to the literal dashed, and smoothing is fixed. -/
def buildEdge (src tgt : List Char) (data : List (List Char × List Char)) : VisEdge :=
  let title := pyStripQuote ((pyDictGet data (sl ("tooltip"))).getD [])
  let color := pyStripQuote ((pyDictGet data (sl ("color"))).getD (sl ("#848484")))
  let arrows := pyStripQuote ((pyDictGet data (sl ("arrowhead"))).getD (sl ("normal")))
  let style := pyStripQuote ((pyDictGet data (sl ("style"))).getD (sl ("solid")))
  let penwidthStr := pyStripQuote ((pyDictGet data (sl ("penwidth"))).getD (sl ("1.0")))
  let width : ℚ :=
    match pyFloat penwidthStr with
    | some q => q
    | none => 1
  { source := src, target := tgt, title := title, color := color, arrows := arrows,
    width := width, dashes := style == sl ("dashed"), smooth := true }

/-- Reduction modulo two to the thirty-second power, the word size of the
Mersenne Twister underlying the Python random module. -/
def m32 (x : Nat) : Nat := x % 4294967296

/-- The generator state: the six hundred twenty-four thirty-two-bit words
of the reference Mersenne Twister packed little-endian into one natural
number, word i sitting at bit offset thirty-two times i; wget reads word
i of a packed state. -/
def wget (st i : Nat) : Nat := (st >>> (32 * i)) % 4294967296

/-- Overwrite word i of a packed generator state. -/
def wset (st i v : Nat) : Nat := st + (v <<< (32 * i)) - ((wget st i) <<< (32 * i))

/-- Apply a step function k times, the loop skeleton shared by the seeding
and regeneration passes; written with the bare recursor so that one
iteration unfolds per recursor step under concrete evaluation. -/
def iterN {a : Type} (f : a → a) (k : Nat) : a → a :=
  Nat.rec (motive := fun _ => a → a) (fun s => s) (fun _ ih s => ih (f s)) k

/-- One iteration of init_genrand, acting on the packed state built so
far, the running index, and the previous word, from which the next word is
derived by the knuth multiplier recurrence. -/
def igStep (s : Nat × Nat × Nat) : Nat × Nat × Nat :=
  let v := m32 (1812433253 * (Nat.xor s.2.2 (s.2.2 >>> 30)) + s.2.1)
  (s.1 + (v <<< (32 * s.2.1)), s.2.1 + 1, v)

/-- init_genrand of the reference Mersenne Twister: the packed state
seeded from a single word. -/
def initGenrand (s : Nat) : Nat :=
  let s0 := m32 s
  (iterN igStep 623 (s0, 1, s0)).1

/-- One iteration of the first mixing loop of init_by_array, acting on the
packed state, the running state index and the key index, with the index
wrap of the reference implementation. -/
def iba1Step (key : List Nat) (s : Nat × Nat × Nat) : Nat × Nat × Nat :=
  let mt := s.1
  let i := s.2.1
  let j := s.2.2
  let prev := wget mt (i - 1)
  let v := m32 (Nat.xor (wget mt i) (m32 ((Nat.xor prev (prev >>> 30)) * 1664525))
    + key.getD j 0 + j)
  let mt1 := wset mt i v
  let mt2 := if 624 ≤ i + 1 then wset mt1 0 (wget mt1 623) else mt1
  let i2 := if 624 ≤ i + 1 then 1 else i + 1
  let j1 := if key.length ≤ j + 1 then 0 else j + 1
  (mt2, i2, j1)

/-- One iteration of the second mixing loop of init_by_array. -/
def iba2Step (s : Nat × Nat) : Nat × Nat :=
  let mt := s.1
  let i := s.2
  let prev := wget mt (i - 1)
  let x := Nat.xor (wget mt i) (m32 ((Nat.xor prev (prev >>> 30)) * 1566083941))
  let v := m32 (x + 4294967296 - i)
  let mt1 := wset mt i v
  let mt2 := if 624 ≤ i + 1 then wset mt1 0 (wget mt1 623) else mt1
  let i2 := if 624 ≤ i + 1 then 1 else i + 1
  (mt2, i2)

/-- init_by_array of the reference Mersenne Twister, which CPython calls
to seed the generator from an integer split into thirty-two-bit words: the
first mixing loop resumes index one after a wrap, the second runs six
hundred twenty-three iterations from the index the first loop left, and
word zero is then pinned to the top bit. -/
def initByArray (key : List Nat) : Nat :=
  let q := iterN (iba1Step key) (max 624 key.length) (initGenrand 19650218, 1, 0)
  let r := iterN iba2Step 623 (q.1, q.2.1)
  wset r.1 0 2147483648

/-- The generator state with the index of the next word to hand out; index
six hundred twenty-four forces a regeneration. -/
structure MTState where
  mt : Nat
  mti : Nat
deriving DecidableEq

/-- random.seed of the integer forty-two: CPython takes the absolute
value, splits it into thirty-two-bit words and calls init_by_array on
them, and the next draw then regenerates. -/
def seededState42 : MTState := { mt := initByArray [42], mti := 624 }

/-- The twist matrix constant, xored in when the stitched word is odd. -/
def mag01 (y : Nat) : Nat := if y % 2 = 1 then 2567483615 else 0

/-- One cell of the block regeneration, run sequentially in place exactly
as the reference implementation does, acting on the packed state and the
cell index. -/
def regenStep (s : Nat × Nat) : Nat × Nat :=
  let mt := s.1
  let kk := s.2
  let y := Nat.lor (Nat.land (wget mt kk) 2147483648)
    (Nat.land (wget mt ((kk + 1) % 624)) 2147483647)
  (wset mt kk (Nat.xor (Nat.xor (wget mt ((kk + 397) % 624)) (y >>> 1)) (mag01 y)), kk + 1)

/-- The block regeneration of genrand_uint32: all six hundred twenty-four
cells rewritten in order. -/
def mtRegen (mt : Nat) : Nat := (iterN regenStep 624 (mt, 0)).1

/-- The tempering of an output word. -/
def temper (y : Nat) : Nat :=
  let y1 := Nat.xor y (y >>> 11)
  let y2 := Nat.xor y1 (Nat.land (m32 (y1 <<< 7)) 2636928640)
  let y3 := Nat.xor y2 (Nat.land (m32 (y2 <<< 15)) 4022730752)
  Nat.xor y3 (y3 >>> 18)

/-- genrand_uint32: regenerate when the index reaches the block size, then
hand out the next tempered word. -/
def genrandUint32 (s : MTState) : Nat × MTState :=
  if 624 ≤ s.mti then
    let mt := mtRegen s.mt
    (temper (wget mt 0), { mt := mt, mti := 1 })
  else
    (temper (wget s.mt s.mti), { mt := s.mt, mti := s.mti + 1 })

/-- getrandbits for at most thirty-two bits: the top k bits of one output
word. -/
def getrandbitsK (s : MTState) (k : Nat) : Nat × MTState :=
  let p := genrandUint32 s
  (p.1 >>> (32 - k), p.2)

/-- The bit length recursion with explicit fuel; the fuel n always
suffices for the argument n itself. -/
def bitLen : Nat → Nat → Nat
  | 0, _ => 0
  | f + 1, n => if n = 0 then 0 else bitLen f (n / 2) + 1

/-- Python int.bit_length, the width the random module internal randbelow
draws at. -/
def pyBitLength (n : Nat) : Nat := bitLen n n

/-- The rejection loop of the random module internal randbelow: draw k-bit
values until one falls under n. The loop is unbounded in CPython; the fuel
argument makes it total here and none marks exhaustion, which a concrete
evaluation never reaches. -/
def randbelowLoop (n k : Nat) : Nat → MTState → Option (Nat × MTState)
  | 0, _ => none
  | fuel + 1, s =>
      let p := getrandbitsK s k
      if p.1 < n then some (p.1, p.2) else randbelowLoop n k fuel p.2

/-- The random module internal randbelow: k is the bit length of n. -/
def pyRandbelow (fuel n : Nat) (s : MTState) : Option (Nat × MTState) :=
  randbelowLoop n (pyBitLength n) fuel s

/-- random.randint of zero and the largest six-digit hexadecimal number,
as line 108 of the source draws it: randrange reduces it to randbelow of
two to the twenty-fourth power. -/
def pyRandintColor (fuel : Nat) (s : MTState) : Option (Nat × MTState) :=
  pyRandbelow fuel 16777216 s

/-- One lowercase hexadecimal digit. -/
def hexDigit (n : Nat) : Char := if n < 10 then Char.ofNat (48 + n) else Char.ofNat (87 + n)

/-- The percent zero-six-x format of a color word under two to the
twenty-fourth power, prefixed with the hash sign as at line 108 of the
source: exactly six lowercase hexadecimal digits with leading zeros. -/
def hex6 (n : Nat) : List Char :=
  ['#', hexDigit (n / 1048576 % 16), hexDigit (n / 65536 % 16), hexDigit (n / 4096 % 16),
    hexDigit (n / 256 % 16), hexDigit (n / 16 % 16), hexDigit (n % 16)]

/-- The color loop of generate_unique_colors: one randint draw per color,
threading the generator state. -/
def gucLoop (fuel : Nat) : Nat → MTState → Option (List (List Char))
  | 0, _ => some []
  | c + 1, s =>
      match pyRandintColor fuel s with
      | none => none
      | some p => (gucLoop fuel c p.2).map fun rest => hex6 p.1 :: rest

/-- generate_unique_colors (source lines 95 to 110): seed the generator
with the fixed constant forty-two, then draw one color word per requested
color and format each as a hash-prefixed hexadecimal string. -/
def generate_unique_colors (fuel n : Nat) : Option (List (List Char)) :=
  gucLoop fuel n seededState42

/-- Checkpoint of the init_genrand pass, packed state after 156 iterations. -/
def mtIG1 : Nat := 1051003669168937840174092018795272339192746317798327910538030579399801258022378402307657604890572486852775857285124622565306229469260776735250744768334774378547984676541891960820741005776210163729257153279155160132186270149162573312697940328421944621607374017230685808946788454587221502386517096679481521625654717224151489684498781891872284256455989341576850643730785160575641935468317859204927784833184460563134107059960174492448450562587325437563547347293169197246913208234717150572359022942312821904916315049564249381722386598772738994010882960532804759919139800904908667785066353531132654122595419045121630754965607215070436655500932850880645534707573411815073262667503714797479298966519664171545567635306615606499758343153011267313653582553386573772061728289521127916505963812377183815836117231443900400247849829968283615750879142680025313425444079964737823555488732151417095555757066964831598664773063185187695316816558997940447734993177639957905006838154872402479852901594896665154078442783660704608531603781688863439184583369331305923099148832453756141847986450217933785599785643208794424023419441719230898053564296870778557932299807173037537444468606144877805261926131645700948130732196045503826146951047095393596550063088302836902182853193143055848953413930146119017544672174855264608456242207942705382900567485238598948042509331760038902716023073753205908703365463034583596949876102097099189184410142501438563703078093302332676597961066351236508338803630283138561837583895218831336258536081776945387178

/-- Checkpoint of the init_genrand pass, packed state after 312 iterations. -/
def mtIG2 : Nat := 43451447770933355967655871035138949693569261124825171477259371368242040963630315041640600927062429357342263245072047913504023898976222663001529237181465201772843534221011158941461788237762698589261273801769281502502593118350248735333713311198202497828243017791061617341960439265842889406544782867384102031255415178900271700980034168162099017956864365589687933957192069187376259297852575715811388574171215432492658087185762998133264937618221271755098965785706070432997411298302669325798217537933293030347163471750845422681163572671323163202114877642119962417042471289236322169711500740026105874938956762201603260389777781630279713951086029849345573805932629935728933211559110808097128740387659360937505283811305307347869883257125318992063172672017615398536223451585974537588286022205134009526045686872405388374260265035160946462461317145380067221477742827625033291004988186600847047377754436956112252765415547548408556447351514012263030872155378162443767249075800305742610089963329250678542759130875153917902877000807677462921581614667852151540757676825924685240218932446899250696312449506135479343622804623859202371994529890468382846930685411934794688331648287209458802119989744293689297836832290230577568486221523698209302874511121874762150532638410906132104470889309461291278796138128439899576644934370820510807927041579775331321262853219456273416624914629492046704521098886302371997733497169681590999013636545589526730424048338678309150088059101227216260252295312930593924952910598006343530852486415054899957422866806481309347647590361328438947697292746295807809428922793414666431031814032861628969263850718323415981880030858167528846350251046504303358726259363323070269072187751201049724611599535900338130652159317711611833200261613695454102202814578620205541009402153224278689166045349627866295907532129503895413832810001764573153936452102111555030652334240483122102594841884380674317392563630683854541905006240664521198153740937166191474997625752436218240484367957684741526689649510263592542862349097987484326349923217637403156985861455776990955562277159694815042715216724617281559276212445232985599228436390356449552586460255915535860776483174844518320695425225063695481080178103231631950275973599455300666837807626044694234147242514012101510230019527491077792176108322681805294472844587867838741311282738328647507874489747241806324255865685263010191263492795301111565976750841965370576184466410593308712339528181219905472475204122126760987352893962695606471420148579799216517439021817837338880498212480863841635080417758859006076745928135992556866011781792223422737565911596816399712199640792654318509917637608884290031624551158142734411201386157483991292013621678138939288482992546376894032653839238558962841745275990259484118213751656221934669102001560497906162914383442900645772006269349662366806111990602419656871248887642639965754962717384557626116538075248782173671677328111889848696227829607958952219328265125408926725048538271658360205449107884774215457740765053921576049468809462583970011502335658

/-- Checkpoint of the init_genrand pass, packed state after 468 iterations. -/
def mtIG3 : Nat := 208035992059834220210739403860728342738800931043459486417504744921804576107301366385882394524307886925326709696410060582571046786712134496918680416680943980311066992226858813038158927200790845598215711110835894507175269770154890531204982837147618802169414808789689761340145628204325618684484621084722441958161688016912421324099288963862239707572182297748227280386198437174447562714349206330194231572762662762674053155475771665202461967933320018913447100034822422979762921114852233133745576130783196381780778154639938751526666234888584530838691192559067459885896673777031593894819048214030450001105630867808582019623280500818645748904258121605299616105273501469975390354896905351370065909776688882633566671587816910500850860633757388199674372573806022960141881055611948866582181676984992901211490256893552544053009758012815604042798812545932751839558253589243749120015197466527216261562425157060089434385830128221712921455503857981414724425113344425234417175596485899270224729087117754854529668640368446340138470234658099993888506482262882918737993134441175774420907183556006556526463607863094934465644577286327377037704901665089009686910392150759300282925219129503035871976228333770430160588331838335667898481327016830105004452391732752044350994760100926516599261747797281390254840875472538528767606952072030869182689372165871386955618806855235067576949371522032198239108243482701233143359722471448202830282418889507694547069068049773197101950269643427660226477930460568533378109402451791210314724223548313851322707445405534124002909836618286620068740688720762227438159581287608606979007047077319245053726311049863900624117476065832089243771857636626832662494462208127245772121616809155442789567803345765946573885776623664069176100079692189634384236874498656719501747099713977009082214178194971705202420499535057551529394526454211574038125338004498187581943207229472091046419387864450729573875311718378934041315910934674693377240215679983586441793675962165813957731444833946627423718897696178983896216097543480408996341236873686029800250376612942682082158541930206598690252769895348947245827935850549430483346058307848014055692746471339373928433310095514834074296951595754717943542698667398718909644596069252143036430309600858872971617811192664078310864514962828331614094999169920786326614212035776789143458809930508663990371339694271149807886149359711693811784257060711344307409870510493207320521197570493643070670858958055885207907195058910103345731933634800397703514352099817952273312921226080321446945314419529193267302596223066209665065443756642755255078392428758584543857761744476524374920968789096166138902962523083570649994679160976276586424438966943496969322277009454395600483862901564019202531392208093592700957074894522718485026768972550288661890842330424655167038151136012365036361483884514973446614021225448108623147155536215936181888046720453080012952087502092581354243002756331248243040618643785481021927273593332067938825043845604510396868901271281261990701233673381817195650457226690768655258116235663135494321079565151842548931440635388741939242526841972619747224493176243784629238255643119828729300652833451551107903937626346504260079736025996650121886304670342126140670814226971462008306821365184095047305248139834716961531905103022374809384807709539099990535679449363786203451346610419001592763364774384532905686160063821305162526801503935329890150221827120645857326418273027547465798232820534796485028692780345062515746159349045967689025544483589338489820734001859227622232745625708868862026593365493687220286709000573878933116152364531507635011829597319025322595421926559683282460316381945822613402947706812081580193965451605528010892672034869851760051379743483979344756547080682038408844290985335050352181949538449104613619606909510514664006024761547293430236429292852441708059399753500064257268629100166032086594139288096645995169302619349574327908753470249278155073089415324864136382563924908537983625256578397064874182882653799912165995469775796373822152617660669376848382903215502783482985764983475510232371871688353833066436151976891627380613272569881653227217696717075420346785687782629660043321847657674392464730753031162675313033245868503571273896513624174400867503818783040443045808586748316034617559153521274495271341416825989360978789221707637391395475082863475846321885345250031796204469497583492780024578728138648559916876191786179386168238276917298840244955770349716983631505438758557336510397735133651956910061719206852673297701165467794484156922122992283426321124181519735969450

/-- Checkpoint of the init_genrand pass, packed state after 623 iterations. -/
def mtIG4 : Nat := 62685089405509111925910797243914719854890513935494713084094713797279779630627496305943786046941309007281293105221577504421353501605599255248785149356818580886163074212016138319710181437623915839386196989339984175865611290932895638485827512283879634622589907034847096838980553398268338905605705315464924834076955485269257682765843392777664062904318116756644819538761883164862381873685805923051342196114892111881287659915424456096361326051748180740843339721465950121631833352165428366344241754810081140762710579390137795215443629123183303201044796731629341661542390258966032612552126580439913324626563213547393121217728067632048719897064596438939163041106934301355643192260261867872030533878188557727018817797219012064641958276099544136480610826250078810896212505254064619595899307426216931651016613164877613570296351724055264357110051005104450572173606849938075379012356137114572525910752676385589168436483206759652170097284388598518122222819376116616668668677988651997615236221431416155794821321118852088948452164682783715959922435191327367306488124638818446090532334864386359317233873012285172875896330714873881780586230596002778688422250420590175698633544778262136505069053046737202152515000629854634631225453245996997340762744567896897683212149150732909707719966588817675821630380251456266588599804209831660991462715440400663143017564651072677052296295930367391822676512661642282350234567553218318066651318510488484545671729568971887621684270732981974442582657502555066960418690332945218280990034155505553171409775830458482159957769211244505225186771766058316021949327301666418107251589707938065072144733816368743637495699897181007119363672460040974223449086641663004605507793014252452324150238463715514559124307431648478948480649031081489229583165223570218974125422263886587593014744330199975749832650568652404661542746543584685860761547297457070273167102314576665676644281998277713093924236551494770138725647883566971887853912300960949802636372591951717316415323846182747445131420005722224687602711525724505110953736568981699982016588947035894059736087136235396798804019434387781559696138411966704777989194870090051835909943079457649936020314680876367897457337488804889342331824364904005266943816631681518612047693872607083945336048154993001716858914072302230374294986610531277637599664647525761147514008899238689946802093944865612982597431648203028809043429562401771290925843222821220221381984318518256971016750121270624021542153515130386081256853244444367484914891752438843250797295149886721543902585582757118492217204960123203770309672216674331373413106027454841661967870247822106376003696537006476355273043676224973894002060133928765135363584693312631060562155459381152426642778209514491263275588735458188352331628933634618912177576995916817414488324819680108333628484452298807271017999262374749573133359090629722111402666396222385680310709557844049479865847370371052888681758484468279513921172987571336140289500145715018352119752770038578015899178947425013401300127437407370742417936980607757405410607208376626705322894782663757703548808362869195819947150150865798288136994832911439410269353230208345410503242199606186650417333579047848825834242257112060317620885151293421378661990197161958015730358249113963865616811805417654957899792836277351433146683316643158745577273742588847277405020330699298979666450169324546781433015633218213248018986767013905101885085728066131985273947793365444250280947765884488609302913437528001802423347517836456663978922564542901160075954132077499502061844004777463229898312792357201472450520034421742281215395838957029567457078867297742321364249618062920323524100796395855490398720473188748064226082130624085325443879193454095100721902723688608983702297802922465778395428510531587340343771240068168890882622394112252370643121994567113348850616779414952571984309063927162547038575769391208822294299053225776973195785292510157058775147687493667385905281728614066936870793483631104130486096422866739022254251631022238998824784309871214211336594149372534724828516536519652291847191320934127662041939033266344757810255450761243406685982638804631309022215852991706323223872506356963395668107287976200691035733250165615782065576159415303394415966535152327550107294310945533761757937224536792146711105700674959937207778503501562879445241463662142281185819506210181780721218897488871995890898495582077564387715740371190275817001449471008660140255770382875594805433223352833476546594040372715841292252983175468170554585838014797017976570586587751089146553833551413146641975370517778330202052282190648141351908509904289169596729111939424597802445523234111653813513351586367960175769546506050051493655326103823629699245586418016468660736051425039803522537493270385743437525903109563398688573456345292160567787373069854610200635728800730405759403691875432721043746233636765094325962472698626875833148826372580999341547042531665331710768365982359935219565301595187067772247975847412037958098451506998773182171027695752045356894447709388159633645629545493246019135820915900506906032640701290570506299065346661219735445730896769091171352761432210047450382980030625592142825700677633624952217795344145832513082782540989616413040988227257601039794195623143595351637462190706636535912449334420058581521218743569834717812580171279915160794789675762903718339466089866492140118823551337811927493524761760551434001520245324751568861558716803095718510972066599595072196209156923318071322517301806566620458899402166430591631348363311478802800521980525250372511467674969151489645720009661369785217086930227581405674315978920044798755483144811069077253851302610194739624245401270682864202663540116818822475326676741780611737275972111438408802370422377608919256570335384654037352344114105999356653180812503717835632673409647782213628400383443178293619326757139369589058612122088577237252104060778375287897543799460272211546791798613974575310224299012205778134871255296492395729078221387894808011355820153110205338707003138385845672884757408327786763143168159295742358655797897448897721796416755370

/-- Checkpoint of the first init_by_array loop after 156 iterations. -/
def mtL1A : Nat := 62685089405509111925910797243914719854890513935494713084094713797279779630627496305943786046941309007281293105221577504421353501605599255248785149356818580886163074212016138319710181437623915839386196989339984175865611290932895638485827512283879634622589907034847096838980553398268338905605705315464924834076955485269257682765843392777664062904318116756644819538761883164862381873685805923051342196114892111881287659915424456096361326051748180740843339721465950121631833352165428366344241754810081140762710579390137795215443629123183303201044796731629341661542390258966032612552126580439913324626563213547393121217728067632048719897064596438939163041106934301355643192260261867872030533878188557727018817797219012064641958276099544136480610826250078810896212505254064619595899307426216931651016613164877613570296351724055264357110051005104450572173606849938075379012356137114572525910752676385589168436483206759652170097284388598518122222819376116616668668677988651997615236221431416155794821321118852088948452164682783715959922435191327367306488124638818446090532334864386359317233873012285172875896330714873881780586230596002778688422250420590175698633544778262136505069053046737202152515000629854634631225453245996997340762744567896897683212149150732909707719966588817675821630380251456266588599804209831660991462715440400663143017564651072677052296295930367391822676512661642282350234567553218318066651318510488484545671729568971887621684270732981974442582657502555066960418690332945218280990034155505553171409775830458482159957769211244505225186771766058316021949327301666418107251589707938065072144733816368743637495699897181007119363672460040974223449086641663004605507793014252452324150238463715514559124307431648478948480649031081489229583165223570218974125422263886587593014744330199975749832650568652404661542746543584685860761547297457070273167102314576665676644281998277713093924236551494770138725647883566971887853912300960949802636372591951717316415323846182747445131420005722224687602711525724505110953736568981699982016588947035894059736087136235396798804019434387781559696138411966704777989194870090051835909943079457649936020314680876367897457337488804889342331824364904005266943816631681518612047693872607083945336048154993001716858914072302230374294986610531277637599664647525761147514008899238689946802093944865612982597431648203028809043429562401771290925843222821220221381984318518256971016750121270624021542153515130386081256853244444367484914891752438843250797295149886721543902585582757118492217204960123203770309672216674331373413106027454841661967870247822106376003696537006476355273043676224973894002060133928765135363584693312631060562155459381152426642778209514491263275588735458188352331628933634618912177576995916817414488324819680108333628484452298807271017999262374749573133359090629722111402666396222385680310709557844049479865847370371052888681758484468279513921172987571336140289500145715018352119752770038578015899178947425013401300127437407370742417936980607757405410607208376626705322894782663757703548808362869195819947150150865798288136994832911439410269353230208345410503242199606186650417333579047848825834242257112060317620885151293421378661990197161958015730358249113963865616811805417654957899792836277351433146683316643158745577273742588847277405020330699298979666450169324546781433015633218213248018986767013905101885085728066131985273947793365444250280947765884488609302913437528001802423347517836456663978922564542901160075954132077499502061844004777463229898312792357201472450520034421742281215395838957029567457078867297742321364249618062920323524100796395855490398720473188748064226082130624085325443879193454095100721902723688608983702297802922465778395428510531587340343771240068168890882622394112252370643121994567113348850616779414952571984309063927162547038575769391208822294299053225776973195785292510157058775147687493667385905281728614066936870793483631104130486096422866739022254251631022238998824784309871214211336594149372534724828516536519652291847191320934127662041939033266344757810255450761243406685982638804631309022215852991706323223872506356963395668107287976200691035733250165615782065576159415303394415966535152327550107294310945533761757937224536792146711105700674959937207778503501562879445241463662142281185819506210181780721218897488871995890898495582077564387715740371190275817001449471008660140255770382875594805433223352833476546594040372715841292252983175468170554585838014797017976570586587751089146553833551413146571934765588720376274919135980982519937442491049713156354925399514611785735686868471301312529736510055162649501289640647854431988320075417754803104332985568133482079038914205342875398945072900354150423474653987986188081994188280990177831988720753848657528549281916111388727694897963278502448530927625693762050202306267020465679993281140487004966212909314082716368255084086356093446024192354740352668158559857552996229205559021395124846443472089674522069014424341177803161496621975120484525523231252163579655203101628262576936618714822336732305018319987361118016042760351899355619958647874453190949290120379655844384623393207128610495651038106983203751331723113788782646221133994618125565200629476511213808319171479817452761222454572824583857102243664055198507126794501939789616212334702447729394592336278181623268086250876407676993530554673693286598140315841256297720124342366614641118246468028226137606340990785668822761590672784132366169712790670238880694755432980100560923368053520053755019831847755742349917980401543238966706968022953009028477558288942107175986102268792840966174102869587271411072532961404020527341386690879462920675762622260145700933138038052103239258692017955463555311056064636979615033910732856891757222416264913092299316774951457401399578897625680427588716293858526907332757101142011288690456781991272993177233268741676953485019597213095958050584353252668504497114295028375140662515310376475589725767352995784593598158083633324382056826214314691733703570985765435131249616631470458918570

/-- Checkpoint of the first init_by_array loop after 312 iterations. -/
def mtL1B : Nat := 62685089405509111925910797243914719854890513935494713084094713797279779630627496305943786046941309007281293105221577504421353501605599255248785149356818580886163074212016138319710181437623915839386196989339984175865611290932895638485827512283879634622589907034847096838980553398268338905605705315464924834076955485269257682765843392777664062904318116756644819538761883164862381873685805923051342196114892111881287659915424456096361326051748180740843339721465950121631833352165428366344241754810081140762710579390137795215443629123183303201044796731629341661542390258966032612552126580439913324626563213547393121217728067632048719897064596438939163041106934301355643192260261867872030533878188557727018817797219012064641958276099544136480610826250078810896212505254064619595899307426216931651016613164877613570296351724055264357110051005104450572173606849938075379012356137114572525910752676385589168436483206759652170097284388598518122222819376116616668668677988651997615236221431416155794821321118852088948452164682783715959922435191327367306488124638818446090532334864386359317233873012285172875896330714873881780586230596002778688422250420590175698633544778262136505069053046737202152515000629854634631225453245996997340762744567896897683212149150732909707719966588817675821630380251456266588599804209831660991462715440400663143017564651072677052296295930367391822676512661642282350234567553218318066651318510488484545671729568971887621684270732981974442582657502555066960418690332945218280990034155505553171409775830458482159957769211244505225186771766058316021949327301666418107251589707938065072144733816368743637495699897181007119363672460040974223449086641663004605507793014252452324150238463715514559124307431648478948480649031081489229583165223570218974125422263886587593014744330199975749832650568652404661542746543584685860761547297457070273167102314576665676644281998277713093924236551494770138725647883566971887853912300960949802636372591951717316415323846182747445131420005722224687602711525724505110953736568981699982016588947035894059736087136235396798804019434387781559696138411966704777989194870090051835909943079457649936020314680876367897457337488804889342331824364904005266943816631681518612047693872607083945336048154993001716858914072302230374294986610531277637599664647525761147514008899238689946802093944865612982597431648203028809043429562401771290925843222821220221381984318518256971016750121270624021542153515130386081256853244444367484914891752438843250797295149886721543902585582757118492217204960123203770309672216674331373413106027454841661967870247822106376003696537006476355273043676224973894002060133928765135363584693312631060562155459381152426642778209514491263275588735458188352331628933634618912177576995916817414488324819680108333628484452298807271017999262374749573133359090629722111402666396222385680310709557844049479865847370371052888681758484468279513921172987571336140289500145715018352119752770038578015899178947425013401300127437407370742417936980738455304137284431084381239360403362915983463134679949187798061689403573080465775647209174644291801373034748341292567450595097089421990343522847866615232611452214867722179708124029325674911875178612843024186601906115005580552642422321453433941752595264772438440170141836387576158886351375031751180704088488980053780139936226258931132673040354207694199354803949662490665944050623979966650943670448681124798896747908636254231444583744826068353475285825766686859132645838267491278590459348817949669190509824691554267805141195311944072653780422124422040408801662949082835768993279165488421242539384427492232531526318772001878399897790963700436549916352385062508397331144326508500922791606939942331669250556710734577184430815453456704894574998717392070785342130187805669063162204466224433579103956180414295878767016993479542419059527208513383894744900612060383028941315950134131390533011791504278003144894195744619620789154756513851215420791879131788663591866987303131605930899488427109468630330829637245158076847591699647709330919366853515007784845526727744289308819912594175738615826352087329035534302281874176058642871304896305177719829731473702784665409090027215648308928470333697989738249741328872950197770335079937891374064208510319745887264535239773011436708666693462158165177746655989086599143718631674574276617354584432964193940522143047997547289264727108968137690610866449520090694632542126571582354279900387497865104945892916675468957416355113135893790033532687599230261448170596177391935260550989747920200521907052271749693871363240112291603941125450349715637244371138492820051059560102395890419404783465190826589608091671440235276689198916012462360967971105358817851810077942474567822079973664630079720777157004147776250886707997484323391591458946803151917449177971108779561343940518518175949603439237017335668373333594151129258397128948571452040134800129355350061046671359982305849455139190795862963647518921459883516017207943696786922457252946123867973822638196186868109036723000834080543948442768558433263315628902922412891595023609039642864992566409680276151338248952692284542564838397868863135613238005416016124211745789069486741468983879611366145392846302165693634089505534105145834084717608921011885663332741764593938086665731565430345803655616452809737771652075004221109280335978282410236563600152035366231388447816269291953594668095734122420169601196836404921149019431461800418013376739685601417539517786075521302253940427304879432320777044291147432969322633011461758433653255170485043788677789645898187741802387268534923968447070050487430074772245297435609653871066922894734188318203564359052896373250436023399169638564542365567480483150849811305245860080518077938638449550570277097833924666118424827254282431616041044677740452236832289917492482442387084006471368709186381381328765090632973634932537653693926696904995081792695668303485960532489585630328825240271175284898795174731117586390212833410501964420935715428660053761260038445054258017866899898986717688175979683039316985345083381780305578

/-- Checkpoint of the first init_by_array loop after 468 iterations. -/
def mtL1C : Nat := 62685089405509111925910797243914719854890513935494713084094713797279779630627496305943786046941309007281293105221577504421353501605599255248785149356818580886163074212016138319710181437623915839386196989339984175865611290932895638485827512283879634622589907034847096838980553398268338905605705315464924834076955485269257682765843392777664062904318116756644819538761883164862381873685805923051342196114892111881287659915424456096361326051748180740843339721465950121631833352165428366344241754810081140762710579390137795215443629123183303201044796731629341661542390258966032612552126580439913324626563213547393121217728067632048719897064596438939163041106934301355643192260261867872030533878188557727018817797219012064641958276099544136480610826250078810896212505254064619595899307426216931651016613164877613570296351724055264357110051005104450572173606849938075379012356137114572525910752676385589168436483206759652170097284388598518122222819376116616668668677988651997615236221431416155794821321118852088948452164682783715959922435191327367306488124638818446090532334864386359317233873012285172875896330714873881780586230596002778688422250420590175698633544778262136505069053046737202152515000629854634631225453245996997340762744567896897683212149150732909707719966588817675821630380251456266588599804209831660991462715440400663143017564651072677052296295930367391822676512661642282350234567553218318066651318510488484545671729568971887621684270732981974442582657502555066960418690332945218281302502024736343757982570845498055681282598406853509579013756035087153821871021487861422874787284352918373811789269742770876098070297429484108024008432441795706538620803947767236923725929302050032715476866790212440545393902765079646465135247248450561436420408885624096097806345762618624448760501009778615908788231922957109571713117305563461803717280781259539826125184378459987600031392325396028116090772233134143847128874446480495017396835891999144891291220132752391608944200847628611782265746901128096209277219534934351017768598737494957478175149880497605617568111409183240594009912578957401850981170880675348965663455629809325888495712773416491138412268269722517087318332979145864326323859289778649594947912358813715126922562836339350092060352022376909353013106057012425628109082679644157236586739050611563647767889394918339898898909267973252935723848642651398824289373028383083652261116681363467950229351281350064121788163695339670540904639490380523566010418297438553273748230038686512053787854879384302040932604615117364732892632464023601930102804110396489369785929665007166375683696111988706537440748781244574439456522998084384212309017545854087346498314508008947272541605898184319920645404457477491369853245410592862031290730595739872781169433505406360238859775700210006800270942332758791244805726603461595453781012479894687250567050258392968883443286035464219832369958325544141784953748970991554975792295308189165962420193821021436077362965906111805020266163797081671330115943657789759806779574510326840774723260355162470476208129617997247027794929686934960339073213161050611451310747085690520579193654854916557272415716562748738189301445236564673932701825001341225582945069403203500123194054770503103161147818082540639126403461535542169700004460260784269589288139573327016729053446857437683448029462564317161970141883057999822859762904588142617644020734232635326964337419730805182538752501428946106349105968299729437517551379090449082035312361880559012821329691200949386743444756223146361933435035197386097514319575625742587582324922864084792398454815107680206033851421430996169106683139857737770720702776021232592803913169770283014352352793455247146181546422142854888680984944385490901524584264349641634665341862669255316632510644148345149360435804080661894801822118912110971879574036666875960789994990479078158667126702216124414518897479792099662201252876934085455303953810689774112208318754311612900358227680894803056446436740393177922692466878690118003698954718594041305333035640109297719803068967663481290605141418803331498935474313973946677773307448065877539361588047218031324897316572252561729463169569012171848384217422332360356888417765382142351217480329816177572195783917460636088238905516181035826949489476793768815664910453714054101110188659421171653307055381455953777261902011188549592148563567370645453166302391831007845681022911693855712010962633389068167461011068397520251952868189893630970920314874158066230850525377768929421938312446920553275980119747423089961539814118055954111558560161223828077865262230173022616603619997958962727762789324806224571229780118116017440913786283182348786056218918800991334924173300668463322132875366864518313091932364230510353947953386114335303595554517330364695423607428115519235391176438514572767984686364008188338663624573114182433941236911966285473765823489006831408155813983883977378833309312156428254794519647033822977430615363105764455840366364893768372991514981067563724955756681477805534015805572762270354733000036818726327375063648662327303872341561364417086738928755000614179841284853827727181837590932728274519663263011935963729129819838060549688009329968412044345515598288885471445629364060389357199438188833592663174245374734815479872015785030123327056127369687287589332847172170756820393175184328722805016455633578765544352039264662933362022163526782534089081212292931963045878120332907111339236398715304307208254782189084927095730929978992594378975546994340489499628627210984604892146297963864573092653400427503111749547080534011165523882334692263232680864799437682446579981910519234779058530643128761059162048211236501569681317361194360055186949591310480545612851490753473833106516270806477934059057618062835157612181830908162963849643835441429183875095119681282011197501947162844524827771516664376712353539993138699661069305168503342162047221932926215046840713399919887259853938702156103911858349909024725191118683752870020338425434064126934550166493251254611035469471992839957486406204403174434869833046242140022458901456636829443029298042538

/-- Checkpoint of the first init_by_array loop after 624 iterations. -/
def mtL1D : Nat := 33773506489637007645896830947751417851180265331228644372364518344875780168543153467881951181163862181286862698808829125290124627175686731869800874741307487965548930355266317783394240298830462487933448378572569367908179565462266594376627242036896706165965298232266834825444902647263860469080165516091875825188648710781958794987588984859700453180382178219353431089271034305083998723287183733348150441438228622618559382013764620383597058885593312774258240950679662604944697652560009591489741090435626475934666280605555195736731843666926019682589081598391160934762701154692050794442636217272039551770777689096408046771493987934781153455743049842145478093221854574186393743810311013663501714229088997284543044218674738424416385968770558136278866955777095124704735164117873905166250685503757332122564607628479344032566655939644704581548008277138690091575910290196390970376768858214919724058449339084587776718812550676528522169023778245368536626048133657549629430184060440799225701169391785264317567834528226883071807892435034067842673728492881635661593023582745385676224291324157697048429575827289853979478063252892687743854529886256153124060327221473687350266519969238003964853121962627802989864941081280485100942407377781788260385980519553818819930199438938374275704597110041637528827679932504137245089410381619775415752050116198407727659860461313118485789625295737585551627620320004898122739218546602762137095402704902124439898328009382454226227607122338919403997342627457836655912577785881737460049474636970495558073683479824398381762473355001415914823298209079466902912005781393189906894767711926072224052269127170984669585989203518786946549302630473038248835237230615396042649483021731352142638203851727985513898990983406914967220762427359730243419744990538091226168033070786769366992436808826473913210609912938229579972164363969071005685130716646011420702081420416384481288726757550236314603192767479786611776764522444376139418035330017688722194657593472817933698936411960869867356419443574657039519834751055280561855100146829203672363825831860134996443718368634795979628521856894205399876277128685891923766447379782363157353599465332586258297697961188260902953793009820214201795911764423185834510092205950855262676797488161498298653524334435216164022932227646500304276717509065131141365920796616816951569139907017662998109752663750660920737484998152455813006176361158981231790068032102898826487004770385290021323650045480836285750017093467862681663542388322378772608559897414261994736815884429750604574733498251614725672172513855578910584419130548420039229671240468021073057760357840285208319549422829443246837482820431600169157700780949354422403093037578420565471351562117466120658177697721324383724202721286454937303796836031571483014896696220232675310472367294638103805272780292281684023915331497831335716626159811129905946219257271221544692537825685211562799484075177381644990161283240409398788486135486172758805495128709566901136219865897453408380182692704805722202091617702156784707514173572772834376659601457245606310535840316216263781494922069575336130988019101044632912998335894966769237394293464411320824791805136310560436777231548601431081217224078586495854800142217139711463809728287879841465514197704647171032806105713626413370050164619062022980306906522015128612900352363424708038324992099411629643518664975552266525038327131694839879586243387751445433189473605470156862524456362518625941859233064097537391433529233717294506442018270772116543006037780174729184748853598711190216467464513403977439401168572627799625651942412164370285832383869953734322973298947097109340771240901488336975341535514335112220190013350276146318758772368322567440517531158417126927278290244362955572874462871683518938849155653148086678084653170880079148064626762945254058974602694218572177541859909245966554526961950248816009479740623005142883646682171481558803939344253423735072691027740446370402104599350470391310391971149567269350867587365874152030282052401068347176449994588253289668410666245315478900579005061610899499460753858092226090157159977023888966471310939343534302106495227958325439240274113164166804929644414645913888124856392735471881339513750468217566144794226200541507767028030553725479794100477817763753690254306923764138656292191545653842520014629674638233588037938303806827284632838384282297018824776114720045821529975457075847556025734817163304131839487802766401669664297541407219629274362821351326148586743716819088104495709460022203627184309023262398855491767699981800055250618884468080460864761907202505662059411060536721197642107108889482764981027444071665362197958771204607738235635023459578898629181282292527874880604702979012019049302611523234105212131050361508669400273969219769911272662367709021174025307116335353968598799866504519218206082554325704339008919879080475156237337957326606198376713061028285669661785989494994441561049445456802811521044021914213208480112541420367251023514608355998180289510100622809895811036822049240812369009658628415843816844626903403464028490666785875226139120165232214878960447862155287149491656772933447255092269989812503187996079285490646061728711835214649709503671389764046672815754720803609108082983725799268208736751513316847774644809493000046015162079187934953846500013574321506395544350131439330545510374057856648232545677040852151022594062956797643747235954145680667591306317596065705421137305984649975778527611050733952255796730908250050311764550327208727861600810808724255730329422514088285402594722537044648308136453695668387477493044686127545177361155088772117897654102470551749482730231839413104917298116909332179369925906916001163048282058943312039521281934398155680168735527045172224934539817316344506854306245840779987668488240919263435540105754224717989455349659657272590436010546962156119699214093591019429475933622294573359672417385737118270844339214178809065080896835343898543125407555332083892593758145879518570685095346550227312832111634374826082157819753075628595279534836940847034400018114577390146369902483091535267852010285416983

/-- Checkpoint of the second init_by_array loop after 156 iterations. -/
def mtL2A : Nat := 33773506489637007645896830947751417851180265331228644372364518344875780168543153467881951181163862181286862698808829125290124627175686731869800874741307487965548930355266317783394240298830462487933448378572569367908179565462266594376627242036896706165965298232266834825444902647263860469080165516091875825188648710781958794987588984859700453180382178219353431089271034305083998723287183733348150441438228622618559382013764620383597058885593312774258240950679662604944697652560009591489741090435626475934666280605555195736731843666926019682589081598391160934762701154692050794442636217272039551770777689096408046771493987934781153455743049842145478093221854574186393743810311013663501714229088997284543044218674738424416385968770558136278866955777095124704735164117873905166250685503757332122564607628479344032566655939644704581548008277138690091575910290196390970376768858214919724058449339084587776718812550676528522169023778245368536626048133657549629430184060440799225701169391785264317567834528226883071807892435034067842673728492881635661593023582745385676224291324157697048429575827289853979478063252892687743854529886256153124060327221473687350266519969238003964853121962627802989864941081280485100942407377781788260385980519553818819930199438938374275704597110041637528827679932504137245089410381619775415752050116198407727659860461313118485789625295737585551627620320004898122739218546602762137095402704902124439898328009382454226227607122338919403997342627457836655912577785881737460049474636970495558073683479824398381762473355001415914823298209079466902912005781393189906894767711926072224052269127170984669585989203518786946549302630473038248835237230615396042649483021731352142638203851727985513898990983406914967220762427359730243419744990538091226168033070786769366992436808826473913210609912938229579972164363969071005685130716646011420702081420416384481288726757550236314603192767479786611776764522444376139418035330017688722194657593472817933698936411960869867356419443574657039519834751055280561855100146829203672363825831860134996443718368634795979628521856894205399876277128685891923766447379782363157353599465332586258297697961188260902953793009820214201795911764423185834510092205950855262676797488161498298653524334435216164022932227646500304276717509065131141365920796616816951569139907017662998109752663750660920737484998152455813006176361158981231790068032102898826487004770385290021323650045480836285750017093467862681663542388322378772608559897414261994736815884429750604574733498251614725672172513855578910584419130548420039229671240468021073057760357840285208319549422829443246837482820431600169157700780949354422403093037578420565471351562117466120658177697721324383724202721286454937303796836031571483014896696220232675310472367294638103805272780292281684023915331497831335716626159811129905946219257271221544692537825685211562799484075177381644990161283240409398788486135486172758805495128709566901136219865897453408380182692704805722202091617702156784707514173572772834376659601457245606310535840316216263781494922069575336130988019101044632912998335894966769237394293464411320824791805136310560436777231548601431081217224078586495854800142217139711463809728287879841465514197704647171032806105713626413370050164619062022980306906522015128612900352363424708038324992099411629643518664975552266525038327131694839879586243387751445433189473605470156862524456362518625941859233064097537391433529233717294506442018270772116543006037780174729184748853598711190216467464513403977439401168572627799625651942412164370285832383869953734322973298947097109340771240901488336975341535514335112220190013350276146318758772368322567440517531158417126927278290244362955572874462871683518938849155653148086678084653170880079148064626762945254058974602694218572177541859909245966554526961950248816009479740623005142883646682171481558803939344253423735072691027740446370402104599350470391310391971149567269350867587365874152030282052401068347176449994588253289668410666245315478900579005061610899499460753858092226090157159977023888966471310939343534302106495227958325439240274113164166804929644414645913888124856392735471881339513750468217566144794226200541507767028030553725479794100477817763753690254306923764138656292191545653842520014629674638233588037938303806827284632838384282297018824776114720045821529975457075847556025734817163304131839487802766401669664297541407219629274362821351326148586743716819088104495709460022203627184309023262398855491767699981800055248859147032647813337314714002579403167474408555899350476130423066384766723051133065892099284924739218938004614047998468021785972374494245775592421988176904246940108674466859327050483231330059908113014624408678260139997609815953559997629227593370809040483664647869551520477958351940174518787510232684982123661691520135880059453654890070244204091409638799027124544945362551371939432752932940636313163034159681677879690201708386624739634912673768619339841884731561718533431093759151322649571966786662130444593576556667039237067043356283710380118592878143158362055337216609977380104850403080707832791841512883219581752102267223057397035379104185969530671705303393179597793401118706319560497459585301328205151899960563235851112761935515616018917980460299829251647633794842329818860342800601399621090509249527649384406068264411124353885692836026888066582312726533054660434797275311887090678054618133375164721108775031646176733673914786324704134395964436197106311532306827119948179600676889016515330419078898898953756519856607741312923099948427507521399453555989433978753588989413444090950416294935467661959474797618525427405181351729551910390282462172189197782830300899503195600653752870965821872506492747537509399584275236991473873627958175526406286719943130884835149230792019418021596203935423090972941094795169688772366071438699311836591980998716948447496063860021746585570650325839852120612648873096565194082186679717271357533868658851047829712464484244388891357619925938943536550888717787327770545114684962015956797420716567

/-- Checkpoint of the second init_by_array loop after 312 iterations. -/
def mtL2B : Nat := 33773506489637007645896830947751417851180265331228644372364518344875780168543153467881951181163862181286862698808829125290124627175686731869800874741307487965548930355266317783394240298830462487933448378572569367908179565462266594376627242036896706165965298232266834825444902647263860469080165516091875825188648710781958794987588984859700453180382178219353431089271034305083998723287183733348150441438228622618559382013764620383597058885593312774258240950679662604944697652560009591489741090435626475934666280605555195736731843666926019682589081598391160934762701154692050794442636217272039551770777689096408046771493987934781153455743049842145478093221854574186393743810311013663501714229088997284543044218674738424416385968770558136278866955777095124704735164117873905166250685503757332122564607628479344032566655939644704581548008277138690091575910290196390970376768858214919724058449339084587776718812550676528522169023778245368536626048133657549629430184060440799225701169391785264317567834528226883071807892435034067842673728492881635661593023582745385676224291324157697048429575827289853979478063252892687743854529886256153124060327221473687350266519969238003964853121962627802989864941081280485100942407377781788260385980519553818819930199438938374275704597110041637528827679932504137245089410381619775415752050116198407727659860461313118485789625295737585551627620320004898122739218546602762137095402704902124439898328009382454226227607122338919403997342627457836655912577785881737460049474636970495558073683479824398381762473355001415914823298209079466902912005781393189906894767711926072224052269127170984669585989203518786946549302630473038248835237230615396042649483021731352142638203851727985513898990983406914967220762427359730243419744990538091226168033070786769366992436808826473913210609912938229579972164363969071005685130716646011420702081420416384481288726757550236314603192767479786611776764522444376139418035330017688722194657593472817933698936411960869867356419443574657039519834751055280561855100146829203672363825831860134996443718368634795979628521856894205399876277128685891923766447379782363157353599465332586258297697961188260902953793009820214201795911764423185834510092205950855262676797488161498298653524334435216164022932227646500304276717509065131141365920796616816951569139907017662998109752663750660920737484998152455813006176361158981231790068032102898826487004770385290021323650045480836285750017093467862681663542388322378772608559897414261994736815884429750604574733498251614725672172513855578910584419130548420039229671240468021073057760357840285208319549422829443246837482820431600169157700780949354422403093037578420565471351562117466120658177697721324383724202721286454937303796836031571483014896696220232675310472367294638103805272780292281684023915331497831335716626159811129905946219257271221544692537825685211562799484075177381644990161283240409398788486135486172758805495128709566901136219865897453408380182692704805722202091617702156783677094308345571117235399544465075710453048663252629348147855354417176778463912820389302707663475551882725263066757333302073651503443549909174631206113178343237539487060673053519241448808787812820321215868383601446732520363112344068677504048876457763472328789256421273319646583777789921957078543627297953521217266250546911167008414287508093401728217508030516962121849349809436902495989671229820694788735252012461465904942164973998236348365941173395861676943314005530339814468221225543713128745285389912804136483926620888869699118267892343651855985921640843839292200200539484969201390682315067732779356462444387038758640308692680186687420105220205760010699266077915285585926081005174273204397626248494722610645649731809516190794629110452160753828540427246167360940240859716814659127688036078059653162526978543367980268782589858189652322020130968664385810926052913818134192245415194334570106079462724512062090616443264667034248733483023870720452288284981871676987829453646708232803597094466343091453755962884908581521935209972123346471791735340398040608762603559538713676517476838657546184571685428947156542689933509222835736399120009838509535332006750910709042338068008914939507908496298056999948114738362610030831068784645931844095336524014200400475228504845826841771262033701596523826802270930843216772301827157423940848940838316055803304401022787482405550888120267521407031525465687449271856547333038887181027653081338528508699399310039196631172529229969100187204848741801529603124613151988333038692749383070148789162501568802667784256309400093068402609682235761179750815036136232175189311297216664832110236160105340242884584172595992605508716886048629394748285914636275824605140374108821852312603384882546266738066296379589524954610155977072253698699637765209886069729921066987985647623588772370213932584456274729406729966813279289007540814205145977870722304348783686026779983922679444259444189761958675945135457598275158295189894255979035214347840102532122539691176059028231241216112525429691649615701877639479257663425381528422677005016877654244146205473941430620773469165847828249499586544770617882005937396618850883591296062995928844679223765704168472887173859426783892047742306669564856443627642948740171035838036185454964144590355328357633522537236543032266040590446171008453927127558613749983157772687456195580068273041361929039143257578210690947689233157973578301284701203594489511267546877140599796101072695164090835900565502293341498103333560384776387246911696169771093099155840271522790239139240153473688120772585723065436101942464827384167676917782045197485302918837212690527891446742715151816943857575168831271621900373898571922054935449568622951126036225609416815656710215840456420104601893762218161462685213787476574872026652629589833149078137389006452164241050294502906629416675645245160807296246001786209036486372581185827538626304944968763135064681739639793578502349107844954204667122678217487937116708620363611194891127796309615187995090249863876923090320963118434915701684990293999498034475550104076823

/-- Checkpoint of the second init_by_array loop after 468 iterations. -/
def mtL2C : Nat := 33773506489637007645896830947751417851180265331228644372364518344875780168543153467881951181163862181286862698808829125290124627175686731869800874741307487965548930355266317783394240298830462487933448378572569367908179565462266594376627242036896706165965298232266834825444902647263860469080165516091875825188648710781958794987588984859700453180382178219353431089271034305083998723287183733348150441438228622618559382013764620383597058885593312774258240950679662604944697652560009591489741090435626475934666280605555195736731843666926019682589081598391160934762701154692050794442636217272039551770777689096408046771493987934781153455743049842145478093221854574186393743810311013663501714229088997284543044218674738424416385968770558136278866955777095124704735164117873905166250685503757332122564607628479344032566655939644704581548008277138690091575910290196390970376768858214919724058449339084587776718812550676528522169023778245368536626048133657549629430184060440799225701169391785264317567834528226883071807892435034067842673728492881635661593023582745385676224291324157697048429575827289853979478063252892687743854529886256153124060327221473687350266519969238003964853121962627802989864941081280485100942407377781788260385980519553818819930199438938374275704597110041637528827679932504137245089410381619775415752050116198407727659860461313118485789625295737585551627620320004898122739218546602762137095402704902124439898328009382454226227607122338919403997342627457836655912577785381198240082924523470123050623246658613059531955327845820177614647028789737055143256682946411489658465762487564022768266261223428033161749280254851410158300925883989744670781753188311415937775550315477010185096429276391277557895463032452837440372747202190055424702576450489080118255436260028519918407968915446650618018547496759592442900366205623165711580261869700286122679520864896631389315086181361958556337374553713141636483074128728188409461406377763821156540657750466293542376389096212779680669343175390156452015636565573436739013265649310496619340554808673818456046871488081664222099722183637927085995868604692916597466917457262670036728156637622789646545049871499076641590263826025545811284348604630735178908694442743226393127792969860958155981188615398770421149935210575389518408103213815747347851524454078926017454803443372616508895080038646151835120653560474965183791525598826960399231720729798538195648672861977959839744655326099305552718883533201379179088419132274608747092015239181149811594769543471649067803079145042565743078148240132561627000588238301756476935108858464154551927303427823509262930602759894161621882501636245328245149746090686864359489893186843612656999980923951300425863430601111744448717707803687345382453514122135184412880689280109384155418314718048964233896905869109413349204145869198358267709174471595268805465231910284122192302893155268600041423679482708995591705131168431325737718161554965126527033604845122063152107993948872017797069842981413744061271676287811129502544440263423907124372425941749378484288099942778703638594646868183521992412892677691500287508014963672307745680656976664954665698380289661773053116201802986960772438559652196692631816412336559736098797413080520149785060448659337803479868198585481297970185775197420129346764822168672627072156402713513036637122527374589268321690366718619349957916163583718417683968774700830349884587744213406930398598514886784493573785759716792724351176781645395576714329015395693317316072876893577487013918794725883785785762887187377116361575216725460735115342976255501940617916831081323432644198844634273587967252721909668200424047647703516231006811571013517994694332922440703598873482538600767669337224251363329636798235572146020409491700051180511494629308776063068743158854492439641025488746796764700358926647894731095689339139578895778517572063595189598080108410859197403384718465835713588573760357380734808639601962862895837402251780166823246797932149719123038019543681517050745065354595449088987682100296311617813513849968133338797287899495828877475625407933175210052961473660885779034279571337928398685116373565342323953732133857905880292553395622167139098567222671938781640694618595790327352082057116830579472534767279311044810010549245885766429905817793430273246792246694926051848902598504557917492439396876140722991231701162399040266121041176064973273859944967387976938670846446684679593910159699851746794146012903658994666147813344068915451081111807684144649712678649389944649518464609207662089438008473719487262841446266587847052521635830171532634678036420130829929459114232592360418601201502430989289965869389045220665459432710602964475846568276889449710454066144165310662853345500784635706630652402191234729729876816119920381850912604348735825077704790264135143168407580007371737497560622992273632454702420445108107506277819688823890869836325493076557982218000647401858748814742425160124923044540705539313548342515153697467618455942797403336182301613317676931599530982338564464495839379103081653769612770852668632564616466952272251437884826787272374431643009974061492292663367943538480717902733108165508641954765899729531006262957499597643888810946849479516077248455057961432342870855336807074371839393102259251308784267997730499950975531031319990239934337730120107649638330048180857552842979118412954316666831887032660919381785455786966071713736493358916149568240837283749784541301884303631273205529519740732220997118727513641796482289206924092523575094520013254843513711037046940841724513113499234783723442023387938826011028466795037316918271243636159524300495100845752451100277059337345336291096086079554065067372347752567266895527559603689093681232785260127863786438896396534967874199441265160556499213391042580673784789177098165994944872266654339101874533151239892186904657633331276977722536767499574603773244241036509564882757931609776912163426873080569064591245898728778740787548788979642054672731539679196702470070090063191338710608991085280807968482353358550021657327639076372965533996771127490781273220385482189029911

/-- Checkpoint of the second init_by_array loop after 623 iterations. -/
def mtL2D : Nat := 82663673431515298878348125892076922365783069757798526784244050598313937512767946555105567842135433541961268832679564447481930064532585187162994848009574585122686978465536439186381119346285389971015664497868787229171546936942409743491868498635940684276698436506858484119070421511331132895304993849329208393304167080010636930173614624441936828135292295563718855043520888652492240787378188287948756429859678131320313149722218900291805028338565883078467138401494859521575283099145981678792121605979857514686793130943330313770376111649808959951136893973580829458877602381614555916176041877040780308989402930592924948451008392659903891078302468096510073054561268220357432569293521497131830922044988516040316696461890252658891937812137077698326841028526045017829237605777094083838852105281119467999132979162337968258864765593801439178690440189871328494739303638814863268844841313736550299766837110548953858269079978575300077403214500257399917385654509269855280076866593554001298152333401922224966669026142300705073497006787091546588638315672230373963619276949115860857537915195517971528759783091402967302621538207894751586345254545658890812158326957740026680361046254661091788809833141626179961244339817613410573958847339378373187693619441538637775379117387231005821087272257887575588666415472628576633153140593663370835676581874735924421676041910321962267240021638441198216858885623188152818149414018042869563767627928969512731857081428011617730744208084126530327493218283188330237634627043385971325726381941006315313020942714598258310683987876910665727287731188639790124681293867861646234928635170596055347748876320543460563710598217691119774835137262721653203268760315335132369835811988465882558753871413950567187950888491278778708993179769359589212223140338911648929104812059421030013898069576284523018150963896668952801120411674791778429096110671166995381822858827748143835556358862070943257843870596573540637319545893499686427023193503527501212077208886574386377910506614773834017585095571295086219028523946090089278153258661151101652418776500307460700083973906927280045011707987505449833896480127873306359431148607415078923831461270087142319684009331203361762220712446499023695587145239836507803911814882161915063108199421454462180373951176940080591277458243306990424535174590565608117888570339351020282643416147931579001026071809341119535798341882348591866021341816283858477697743453078021468501089065876249217344973525146889733762953917240334288868075485850723093607653871568457710689630971657574294402882195859207485343534840350175651994341004124212724981721578117943060373849165947808571471891508735080997298866016147935597339741326699207245466538208100666522864891933314470052847443745362970439547486838679354253152706760662870260695765537519959477479236623427719242905028476959368576490782805659127625261440007910351269462263618011075338316276799690902972302414342081963789515076393143995054867467145996471721122262153391442956285601802605476397557566559450267605107458855443216396947043236466552312718601892346433056767222165007631025666329375837184765840658676984284898489439007535391352662806494262031897013250263783539285102395455285405586348388035372015632823519802485179765492948982546612526153800948715917650443950850763563724409276334725236486125780651617723156297129367448296429400501658864742787022386577801752109777995373643436257912637333933711048378945228596862424214289259619104637366641443538704731253676073244211636412676550633624664133121478778776111533665195661274450601309176889593940105997537866071103429448805421406604198813742993998233955753216345778991410288420119110747377910893206478621845275458581206595814392549010399578388394455596558399177559012440595257880737519332053733088704345198907442504378387452888582487598736159677336669375019252418034169126276810242464452009879946391356983340052344519479660054088553061453767842109352665840972474712870381811517528648921344229102378851273254037244071546208559258016189186158802618570846122407575805735030986258251196917519792348510966228747838123198341870470991715526936441643149113847485699378420789111139857383241164952960343291754521639145070355966654445817548644348650273031627831871495744424251118353351051222881461179282505742625883322828268681808442704003090495155928716789727084061892349514338658395371297819336306263603709114744903843904591124462052342531061608033894644700791602929417769154835809424656043301921926405984733455919977169569562649687764138614136181729139101193691064746253805507687858731219097977446277929944857559114214479159089992700650344331766417996128520977707702114605234270300941059024559973626552283595879490977810574097596817932342925187862210088032263679453624373251399815432164509970923732755899633213695217078969529292889501568936211411421832673008676464711723258486764387687868195022143610469168114413816692593499503362135502793949170225772523155861923786490569333307891612009190037098908912854496416224567772506087995574471691774742094533496432215025256857202341100016144546835039088618003145675471911061031651823919108846562898430344438333412649773016774319745863312578255622591730450250454049581974952521575677756510885726227820993325710142791982262002791705187233974393058765755898055574917073353369401448705875691147668673637031620118190837133060462247401748650653817816500141693022196589991967774605824182010372414700031888464714730496618956601046353021989592591742320641287758643958518097449941404447696168491179816629429129771105998930717437864821069172069443993350771034571599696711991967256208924709477644996763434696889220399136009975669525716352049291399547346304876650638301401301618762213031777838267774121901738861940788081719129371439913104498129403320815411623744192827189151602680112510742587865501506308134080999842352934760391759277333729625584783607717610692317409767482322713453654931345215458341138477248249917257282357085856207131022595584665377353030892790299412394424181800230114513106055999290234221809887012605716481381181377152610833997359650142432360208923679629717

/-- The packed generator state right after random.seed of forty-two. -/
def mtSeedW : Nat := 82663673431515298878348125892076922365783069757798526784244050598313937512767946555105567842135433541961268832679564447481930064532585187162994848009574585122686978465536439186381119346285389971015664497868787229171546936942409743491868498635940684276698436506858484119070421511331132895304993849329208393304167080010636930173614624441936828135292295563718855043520888652492240787378188287948756429859678131320313149722218900291805028338565883078467138401494859521575283099145981678792121605979857514686793130943330313770376111649808959951136893973580829458877602381614555916176041877040780308989402930592924948451008392659903891078302468096510073054561268220357432569293521497131830922044988516040316696461890252658891937812137077698326841028526045017829237605777094083838852105281119467999132979162337968258864765593801439178690440189871328494739303638814863268844841313736550299766837110548953858269079978575300077403214500257399917385654509269855280076866593554001298152333401922224966669026142300705073497006787091546588638315672230373963619276949115860857537915195517971528759783091402967302621538207894751586345254545658890812158326957740026680361046254661091788809833141626179961244339817613410573958847339378373187693619441538637775379117387231005821087272257887575588666415472628576633153140593663370835676581874735924421676041910321962267240021638441198216858885623188152818149414018042869563767627928969512731857081428011617730744208084126530327493218283188330237634627043385971325726381941006315313020942714598258310683987876910665727287731188639790124681293867861646234928635170596055347748876320543460563710598217691119774835137262721653203268760315335132369835811988465882558753871413950567187950888491278778708993179769359589212223140338911648929104812059421030013898069576284523018150963896668952801120411674791778429096110671166995381822858827748143835556358862070943257843870596573540637319545893499686427023193503527501212077208886574386377910506614773834017585095571295086219028523946090089278153258661151101652418776500307460700083973906927280045011707987505449833896480127873306359431148607415078923831461270087142319684009331203361762220712446499023695587145239836507803911814882161915063108199421454462180373951176940080591277458243306990424535174590565608117888570339351020282643416147931579001026071809341119535798341882348591866021341816283858477697743453078021468501089065876249217344973525146889733762953917240334288868075485850723093607653871568457710689630971657574294402882195859207485343534840350175651994341004124212724981721578117943060373849165947808571471891508735080997298866016147935597339741326699207245466538208100666522864891933314470052847443745362970439547486838679354253152706760662870260695765537519959477479236623427719242905028476959368576490782805659127625261440007910351269462263618011075338316276799690902972302414342081963789515076393143995054867467145996471721122262153391442956285601802605476397557566559450267605107458855443216396947043236466552312718601892346433056767222165007631025666329375837184765840658676984284898489439007535391352662806494262031897013250263783539285102395455285405586348388035372015632823519802485179765492948982546612526153800948715917650443950850763563724409276334725236486125780651617723156297129367448296429400501658864742787022386577801752109777995373643436257912637333933711048378945228596862424214289259619104637366641443538704731253676073244211636412676550633624664133121478778776111533665195661274450601309176889593940105997537866071103429448805421406604198813742993998233955753216345778991410288420119110747377910893206478621845275458581206595814392549010399578388394455596558399177559012440595257880737519332053733088704345198907442504378387452888582487598736159677336669375019252418034169126276810242464452009879946391356983340052344519479660054088553061453767842109352665840972474712870381811517528648921344229102378851273254037244071546208559258016189186158802618570846122407575805735030986258251196917519792348510966228747838123198341870470991715526936441643149113847485699378420789111139857383241164952960343291754521639145070355966654445817548644348650273031627831871495744424251118353351051222881461179282505742625883322828268681808442704003090495155928716789727084061892349514338658395371297819336306263603709114744903843904591124462052342531061608033894644700791602929417769154835809424656043301921926405984733455919977169569562649687764138614136181729139101193691064746253805507687858731219097977446277929944857559114214479159089992700650344331766417996128520977707702114605234270300941059024559973626552283595879490977810574097596817932342925187862210088032263679453624373251399815432164509970923732755899633213695217078969529292889501568936211411421832673008676464711723258486764387687868195022143610469168114413816692593499503362135502793949170225772523155861923786490569333307891612009190037098908912854496416224567772506087995574471691774742094533496432215025256857202341100016144546835039088618003145675471911061031651823919108846562898430344438333412649773016774319745863312578255622591730450250454049581974952521575677756510885726227820993325710142791982262002791705187233974393058765755898055574917073353369401448705875691147668673637031620118190837133060462247401748650653817816500141693022196589991967774605824182010372414700031888464714730496618956601046353021989592591742320641287758643958518097449941404447696168491179816629429129771105998930717437864821069172069443993350771034571599696711991967256208924709477644996763434696889220399136009975669525716352049291399547346304876650638301401301618762213031777838267774121901738861940788081719129371439913104498129403320815411623744192827189151602680112510742587865501506308134080999842352934760391759277333729625584783607717610692317409767482322713453654931345215458341138477248249917257282357085856207131022595584665377353030892790299412394424181800230114513106055999290234221809887012605716481381181377152610833997359650142432360208921996034048

/-- Checkpoint of the first block regeneration after 156 cells. -/
def mtRGA : Nat := 82663673431515298878348125892076922365783069757798526784244050598313937512767946555105567842135433541961268832679564447481930064532585187162994848009574585122686978465536439186381119346285389971015664497868787229171546936942409743491868498635940684276698436506858484119070421511331132895304993849329208393304167080010636930173614624441936828135292295563718855043520888652492240787378188287948756429859678131320313149722218900291805028338565883078467138401494859521575283099145981678792121605979857514686793130943330313770376111649808959951136893973580829458877602381614555916176041877040780308989402930592924948451008392659903891078302468096510073054561268220357432569293521497131830922044988516040316696461890252658891937812137077698326841028526045017829237605777094083838852105281119467999132979162337968258864765593801439178690440189871328494739303638814863268844841313736550299766837110548953858269079978575300077403214500257399917385654509269855280076866593554001298152333401922224966669026142300705073497006787091546588638315672230373963619276949115860857537915195517971528759783091402967302621538207894751586345254545658890812158326957740026680361046254661091788809833141626179961244339817613410573958847339378373187693619441538637775379117387231005821087272257887575588666415472628576633153140593663370835676581874735924421676041910321962267240021638441198216858885623188152818149414018042869563767627928969512731857081428011617730744208084126530327493218283188330237634627043385971325726381941006315313020942714598258310683987876910665727287731188639790124681293867861646234928635170596055347748876320543460563710598217691119774835137262721653203268760315335132369835811988465882558753871413950567187950888491278778708993179769359589212223140338911648929104812059421030013898069576284523018150963896668952801120411674791778429096110671166995381822858827748143835556358862070943257843870596573540637319545893499686427023193503527501212077208886574386377910506614773834017585095571295086219028523946090089278153258661151101652418776500307460700083973906927280045011707987505449833896480127873306359431148607415078923831461270087142319684009331203361762220712446499023695587145239836507803911814882161915063108199421454462180373951176940080591277458243306990424535174590565608117888570339351020282643416147931579001026071809341119535798341882348591866021341816283858477697743453078021468501089065876249217344973525146889733762953917240334288868075485850723093607653871568457710689630971657574294402882195859207485343534840350175651994341004124212724981721578117943060373849165947808571471891508735080997298866016147935597339741326699207245466538208100666522864891933314470052847443745362970439547486838679354253152706760662870260695765537519959477479236623427719242905028476959368576490782805659127625261440007910351269462263618011075338316276799690902972302414342081963789515076393143995054867467145996471721122262153391442956285601802605476397557566559450267605107458855443216396947043236466552312718601892346433056767222165007631025666329375837184765840658676984284898489439007535391352662806494262031897013250263783539285102395455285405586348388035372015632823519802485179765492948982546612526153800948715917650443950850763563724409276334725236486125780651617723156297129367448296429400501658864742787022386577801752109777995373643436257912637333933711048378945228596862424214289259619104637366641443538704731253676073244211636412676550633624664133121478778776111533665195661274450601309176889593940105997537866071103429448805421406604198813742993998233955753216345778991410288420119110747377910893206478621845275458581206595814392549010399578388394455596558399177559012440595257880737519332053733088704345198907442504378387452888582487598736159677336669375019252418034169126276810242464452009879946391356983340052344519479660054088553061453767842109352665840972474712870381811517528648921344229102378851273254037244071546208559258016189186158802618570846122407575805735030986258251196917519792348510966228747838123198341870470991715526936441643149113847485699378420789111139857383241164952960343291754521639145070355966654445817548644348650273031627831871495744424251118353351051222881461179282505742625883322828268681808442704003090495155928716789727084061892349514338658395371297819336306263603709114744903843904591124462052342531061608033894644700791602929417769154835809424656043301921926405984733455919977169569562649687764138614136181729139101193691064746253805507687858731219097977446277929619879044990634224985979628448342935817385698045313496152871470545455235984792225114560188107880438244712680208250244222479989035493118191899953903023599431716285545071785576503894875357352790965070170037418075560437158333649143174373623252852523791904008678982042637501861008377876994287549313561600951138427398828472517627533286278380966721246554026544308446844029729870326262268712233415419496278715719178644256578688253169295043747988706998358575233862499456928228434118277054862315949365077061801959282986896196847584284023834798649176031629806433321791026534470693102710244176574810246649493610337951811004717192261436266925902638022596042335587240217105782233908417527953266324553021771990537941540866430159705768916004456494050798860334155491917957568320021037742860474264165834027975328141050638672783921190640577881567384095057254350690862783439597927594917219123809959775825428041472711202741634687936094488325346065010156954815881537322014357488719902503579365092486345639102029175249394000986458933130888102028317619297324188343082307790089760899443913791353058649154082274524683523634926069351725765136971566798025367910951938313910032516815512555488020625312993130242536373792400376113195934860124955637247140473501155996969258057766559093148485441616065718865275770169856011377149560539672040538034182283287823247042561544456949572962880045421489603494566426190267497028135912711638546586471556325074638746930286122924430228056569403191566886939685418544005695129917129530829106571339165

/-- Checkpoint of the first block regeneration after 312 cells. -/
def mtRGB : Nat := 82663673431515298878348125892076922365783069757798526784244050598313937512767946555105567842135433541961268832679564447481930064532585187162994848009574585122686978465536439186381119346285389971015664497868787229171546936942409743491868498635940684276698436506858484119070421511331132895304993849329208393304167080010636930173614624441936828135292295563718855043520888652492240787378188287948756429859678131320313149722218900291805028338565883078467138401494859521575283099145981678792121605979857514686793130943330313770376111649808959951136893973580829458877602381614555916176041877040780308989402930592924948451008392659903891078302468096510073054561268220357432569293521497131830922044988516040316696461890252658891937812137077698326841028526045017829237605777094083838852105281119467999132979162337968258864765593801439178690440189871328494739303638814863268844841313736550299766837110548953858269079978575300077403214500257399917385654509269855280076866593554001298152333401922224966669026142300705073497006787091546588638315672230373963619276949115860857537915195517971528759783091402967302621538207894751586345254545658890812158326957740026680361046254661091788809833141626179961244339817613410573958847339378373187693619441538637775379117387231005821087272257887575588666415472628576633153140593663370835676581874735924421676041910321962267240021638441198216858885623188152818149414018042869563767627928969512731857081428011617730744208084126530327493218283188330237634627043385971325726381941006315313020942714598258310683987876910665727287731188639790124681293867861646234928635170596055347748876320543460563710598217691119774835137262721653203268760315335132369835811988465882558753871413950567187950888491278778708993179769359589212223140338911648929104812059421030013898069576284523018150963896668952801120411674791778429096110671166995381822858827748143835556358862070943257843870596573540637319545893499686427023193503527501212077208886574386377910506614773834017585095571295086219028523946090089278153258661151101652418776500307460700083973906927280045011707987505449833896480127873306359431148607415078923831461270087142319684009331203361762220712446499023695587145239836507803911814882161915063108199421454462180373951176940080591277458243306990424535174590565608117888570339351020282643416147931579001026071809341119535798341882348591866021341816283858477697743453078021468501089065876249217344973525146889733762953917240334288868075485850723093607653871568457710689630971657574294402882195859207485343534840350175651994341004124212724981721578117943060373849165947808571471891508735080997298866016147935597339741326699207245466538208100666522864891933314470052847443745362970439547486838679354253152706760662870260695765537519959477479236623427719242905028476959368576490782805659127625261440007910351269462263618011075338316276799690902972302414342081963789515076393143995054867467145996471721122262153391442956285601802605476397557566559450267605107458855443216396947043236466552312616079116622777769647931266284811643913430408286873214835668460236977217616098949286201334160373198571413523055912071273440252367588644174968055184158884620294122290583596395685231112253354682224402898635545159345093757345074700402032738956276954166220288319993873423218181780195811285956207899043138591059985688473431543110079858721832801057486162924337533131334378258032468951188629780320355555178385830318935128598716350351421920622899477466528358298322765131176627624028081569238242756918125495013174976632126829680537138500943022577900588731855127947502296378788222752467419814835235477699717461518540128491143144882399140437678278547026649520820239561086454958223301823181513287654669040402693442579667012186050489590711405450600115118021215938573010843532582917032338136784236001156684532504894941692923433517288627692032805061570955319443110640659270638719496922336776982558881266135358642866753511778041234785287880139953884604095297043477944967674319356021479506869683011295129365053981323764859594783811191821481346077888282699994399570270624675270865490454662904002867228160765476780408468721656898900895374662477470392119662348990762333356827356252296233704042957767998870269786185329263499178513970690748979507385868657217861767331599691573517022703412450033859496607840034491117435910469779852742012788915174578024761769263754086117311831630013490448968512205016538102843019036370780411291049748806110969005627412772578667176272224896053547679309834339180072910963951993726723548221626820147683554434135704760133075826027932744153915464448429378983807947340522307680169967408082558805093637414897603062164774534655961288799666090778989420365506777515048273421575599800303369804312167721329726812938370506784816220994411865994463675816269314743207623433615455498010281452210484682864161359029905003959827851516303704376395337025461562093765667540455368392748810517808054072696802412563109728756114646506241686041250369132773199567316748518846554481155994052616913977383453548804593076394535159247699180896456758806659719106753405511175243836446368386311625859224879579319596891890577128725283324716307872880093992134201902177525488391617094907239358729749491529729994726375472654941206140818831912181927623202101412541209212609213110600193855840452757258993264831153692005746394922257116831753344599384303536881471787210708995652103074438856714715036540345139066820046436720202608007058192123879975164342841574457019130176299072306637928372529270339387624211965443616631840022986558770099305077862516710670589024920479520210795685768302754727194314175246586174240114322288196286509439640216002989149463069417624747976663346177537030368616133354642174059552910367739048852305911305046193506011363101152309073418470164198438809928507411707158260639287798382078059722576231341137442046946915965872849399439718077829997174537522746240975618595794203752557666175978491467402386779820975396820654045834360652341319901246208160127671700128607780704244214475381846339937470846123173488634526209107357

/-- Checkpoint of the first block regeneration after 468 cells. -/
def mtRGC : Nat := 82663673431515298878348125892076922365783069757798526784244050598313937512767946555105567842135433541961268832679564447481930064532585187162994848009574585122686978465536439186381119346285389971015664497868787229171546936942409743491868498635940684276698436506858484119070421511331132895304993849329208393304167080010636930173614624441936828135292295563718855043520888652492240787378188287948756429859678131320313149722218900291805028338565883078467138401494859521575283099145981678792121605979857514686793130943330313770376111649808959951136893973580829458877602381614555916176041877040780308989402930592924948451008392659903891078302468096510073054561268220357432569293521497131830922044988516040316696461890252658891937812137077698326841028526045017829237605777094083838852105281119467999132979162337968258864765593801439178690440189871328494739303638814863268844841313736550299766837110548953858269079978575300077403214500257399917385654509269855280076866593554001298152333401922224966669026142300705073497006787091546588638315672230373963619276949115860857537915195517971528759783091402967302621538207894751586345254545658890812158326957740026680361046254661091788809833141626179961244339817613410573958847339378373187693619441538637775379117387231005821087272257887575588666415472628576633153140593663370835676581874735924421676041910321962267240021638441198216858885623188152818149414018042869563767627928969512731857081428011617730744208084126530327493218283188330237634627043385971325726381940944420759866485653407928675315545134185283493211968386887208537855559430209198548617892060887472496264992948510583228702186015362987770873384319534455503063012695912928814941645887776520477578962192417483764032280665970488448699215683739685055092576736704081897842885217917018630157460586793686540138843421592555284648694569924581629255248404441244733002225659214298695825594415932047071405217667433821558198558823585136263587583717250469517662715849875190205091487701056579829236403985121079761322234346310762197860738163173919547050625400840436275266883509464008668988185569231249568078351172115969401715706424381076171248585717693469339870632139424150650243021269291924607262907060031225115220159337149760399480712292972017522277502948455780183949051668523722316705943610183329536548325329705772580627988268748876234204614464741148851963019928708795470308601126730825176195300668919976207006130457146108052296766216615692139313502421116978412215511613304168229219491994459851169750267320352230692392779682187569580232926702357698790959957248206528511611512025427893842492615686489724322269266904708495339967100432725074938400070615836827079602888773947660726668748216481969252326825729031016486589301243519855292232417694478317772205435085800413542237948540420642855402858468419468267620790765623527821641890272970381097115000553833409056586314841283929186344567570496245225883010264390102626260749947654916329728096675220624049792551864815585717353027904943751933636952897078430455938433364868671564446041469695390513259817618428091166052552388250652596510518391051498113342505430623980595784275363098660796228020080233594830242364201259040175863372111486778712648965205213449126836674008485336279495943778920994140566002447394073389646413974747278697932891329266155557022544368874281825467455798502457348233959376540969612093049375934547934868041622966232761581715220647352507795913988903373411473384105790391836860139972250681839479001326067200724337401119994436635159214058643386511789407007374921618407914199762877013292855376265968769489189492199171898534678135083398935656647686943204023562539575287947404256181759834191608716240927293347217408031423545611062985996241194563709901898381040377976226050915767190833237340368654713537478879537741678929848521330837240966608053014557580474644121668118122556870457432227779745030822590993330322046029897806681582841416060857882784565160330445983953880832379786520341927696140341694423473075588876884942651719374805558181674848086640007875242229668248035369027661087042262531419124031088761906425517543412274753399873630415221729611024736519338900095123236367478292786135474765402472378465794917244507752743607698458782349378817808458696620603205879916399615973215965238454317952307355295999159635308974814654731305437487019594230421847726576455482674866701186949992884815889429047232378256351959980212174834465089104575204490557995929195247434891490964053105106473768435702444237284479873223917365149664330611938040154449074773275500732014972561179366651005509154325271985486790744574364228739141606467604005959990042883215689023749047269967186241300349726401678643943696313697359541417905635628882891184615663034220336389090977687391693448860579255004405973884030815146828807408035168118141586003122468199302868293866788807227097491000195918645142696639665741420721803453992568867436467653418976924800976331868370487580273985333773400511585283257204233379003308914344264188801304679697576772104735414031611395862070845638717667434411118093110267118774275376589234067685686185492657031112995912119421396068176313427527564430531675312135792814525290270946879462629447742842528176429563902187159491110813422947674759878282645970912593477401913399807177942496911135153915964541037796703454562298666054673724462803335432839902072933519813489316071340832323536394887269524590637558736280499561587180324030972334737084382544077635528723012175194355422654694302850437727129697452555995764182399400512967552708235550700425593431202882163512609613709803492301143024325570804237925317677642244542422191877925919860445760869290354372535695998903489417627599790851965188333540782521680709450152700736373942327250084015036275637943480156624205299623084831416832615968002090967476035913978765709187555066776993186367789399271328448865370110261735933617128687949640578008776219905950823124926135287790200987182785091518581320728782896236056395232707023761615085804503981103141489871638196330858692605647389364929372158813754874658570058437653623417246747821560406697373

/-- Checkpoint of the first block regeneration after 624 cells. -/
def mtRGD : Nat := 23286412696272796128385897882899802046735748944147304095586925937806345412490055899989764787484019671778376362860042742494792413992016635194480038477926904958899144614039557626716988148046858795729988411355407357548889190298165282191259573451220739704130358456492366200248883967389173812742747365951504723827523001491684280272471146320539623073306718256054486728666524616861157674570314020673215994879601644468493397565948697625971234773093914841101193534975382259956342285658764551397402609057923396101053639833475318217931762856992618905368851508431145636474930815718376354884170331578353645378352602708588674621094947420057719398999411780746413367716750015272006187870701685896805295225270884333726677135807614285840605691082136490217584185163901883278716870542932408492276006934865950227228102565619591461173805522792331549657987608467832953423202739185593471886873026513156423612104712278866544088995443062358275943090013331027296613716195131399476645881603863139798632036678923865823483738444232435763768448564749145225791584554176552634074674452371087255094700183545843401961001081364543762853499747092448068502508107593222630087591092190301278596492271084561527815914631099970271527741341154498636817887954386114857723617590227434680446936190223263833291945243787167247149965989045571619886692880836576710444656652995794686726592702042909876779011822418497887649544399191573617662283988123334351033491691796060980506833548165946249816500531072975720101201148937385795784874674629915552672362617383321719837739429255985286112730811702868712409941153617174075894697487470068453019650904234526005029575161998672416784142896346487246864102740666523927113249728893342584950081500666413223075139020834369395133027522567192339447474603437176136121429942424113503165651764463838168080640665909102853392454355233594720929998804403108112539299819964006223882881356867663239923365640981086766641761515297600657027403195393633240963358398367554981774333956721216433851233514169545306034533986830036116585909294995659056896975306339311913500665920155125378855507762655484458244595756571073270346554631189797527287186906544490192119811857340633612822753313718241274967409117961253011924109326791253319825904752833477351536518342894139189453000956528443747216037073273671221727149026146344923908052024457850500041663850036624099467140232474787791721045655918272563736783264349783782731035180013699315093809364598771418606152417216097180548070943269883902267891435223805520989936607956077030220406868186637122337732751075798983567883250427889753615936024670428353008364175599230073860307230172879655230697897043531116402063962476243553472520178188319041538472605912360815622740862670090705068958399109665958228000669173533293354031463386330625667331834652998204824593734638096670793318709992279933082510076752228441866820292945328046102660857229395046334118857136097623449515342034623405425867640111085158005212708735355617504106639713612663723609468506576502149805431988349667888873766989901288124552226611709923696250483328623879467458940304767010528851526461680464236857867452516372589555536686351943179251598160839013012754338815351828372760694583523004453931120329908535994740543763938877977565925800314656356696314860778451301506104495553626674880902354234676963699516108316781033383469889699857398909924439587768695698940339121265261182049269862323764164620756114931585764507820465988192520691623426751401040549597714182200371618208025688973739685384513159399246575377965130891355864446900081101970162893944424756304632423169527481380468427896112720572741216587451395016309850851716420910424598867183019891667575692338585798842294879764817624284278219752523075007123801771903544143700812217310189752937873050113077832258306963562783905735500410546365130101854524919763983206841661367311933478527235156747173998039831748914357363958110023707346171262306842031879110841956153517301114814498515955290074819480993346943212015103100760064168814481550228857878687402486979821435808498704365332158722439149640862842872882305330515624683825889267770073780313093413628761960362785040821728222505917783150425670125466259757911832197125032317718132586927606140166614064453023155532373325035480075314560955164947539185016274212676845349939602719662779258735428274936191714345440299139674205179154738197015510172791710203374566887642266846822627516487759168535594197497712130627077690751420191390629676160138980402797289454242465323821263625442908510948053173773364784462190015868242922154187553627666329911751351367348284498478120355294318548190303313515398623542186825776853395891044485977185103856118630981012292810712210549436275409396561870155846749587968794410401406019592329092419797227756782883858425304340820553674101561825316271266907187479993228490833649511261948282000516355287224823701849161267658147453894622022555465564762662747236105306321164736124720441242391728630986300587810210103304386380987562148870746821955948349781742619760301217033615854063564504285773784578046390044993424643195844511653552226479317239373745300979133210860741015056170308196753896425575987365318209291810315853192469645196632559351154607507854083767429091321860317918982658720636329449846124447523343709157747028570593657907691799462999122224604858032462813412226252078689141167619669763888992450090791106235260761711380574332201438891412838064418792597077561185245612725179349795162598851806363347610022835261658434149733138082336066926500349361306074639508348727036183048346134974496623934852669861527034319363078321856867189640763771583180654524431393492146361864683494027463236383483141406826227013984680097735659500624881852509349301241846631761364507936910779621552262902646323469016683886689777023536772873711539455067644624234633639728370672550427760649707901418501965312729024468387284203044930930023127659691566401597503825305682639201612517425907130819996089253534756782958389002918536303215296996060899872406077485717625280433555794517966049296080338486659354725358640798081366344678683170445274787496285617840986482077

/-- The fill and border pair stored per cluster label. -/
structure GroupStyle where
  background : List Char
  border : List Char
deriving DecidableEq

/-- The fixed border color of source line 90. -/
def borderColor : List Char := sl ("#2B7CE9")

/-- generate_group_styles (source lines 73 to 93), with the iteration order
of the Python set of distinct cluster labels passed in explicitly: CPython
iterates a set of strings in an order that depends on the per-process hash
randomization, so the order is an input of the run, not a function of the
label set. Each label of the order is zipped with the generated colors. -/
def generate_group_styles (uniqueClusters : List (List Char)) (fuel : Nat) :
    Option (List (List Char × GroupStyle)) :=
  (generate_unique_colors fuel uniqueClusters.length).map fun colors =>
    (uniqueClusters.zip colors).map fun p => (p.1, { background := p.2, border := borderColor })

/-- No entry of the list occurs twice. -/
def noDupB : List (List Char) → Bool
  | [] => true
  | x :: r => (!(r.contains x)) && noDupB r

/-- The order list enumerates exactly the set of values of the cluster
dictionary, each once: what any single iteration of the Python set of
cluster labels yields. -/
def isSetEnumOf (order : List (List Char)) (clusters : List (List Char × List Char)) : Bool :=
  noDupB order && (clusters.map Prod.snd).all (fun v => order.contains v)
    && order.all fun v => (clusters.map Prod.snd).contains v

/-- The fixed client-side script block of inject_custom_js (source lines
256 to 294), the collapse and expand behavior inserted into the rendered
document. -/
def customJs : List Char :=
  ("
        <script type=\"text/javascript\">
            // Function to toggle visibility of connected nodes
            function toggleNode(nodeId) \x7b
                var connectedNodes = network.getConnectedNodes(nodeId);
                var connectedEdges = network.getConnectedEdges(nodeId);
                
                connectedNodes.forEach(function(n) \x7b
                    var node = nodes.get(n);
                    if (node.hidden === undefined || node.hidden === false) \x7b
                        node.hidden = true;
                        nodes.update(node);
                    \x7d else \x7b
                        node.hidden = false;
                        nodes.update(node);
                    \x7d
                \x7d);
                
                connectedEdges.forEach(function(e) \x7b
                    var edge = edges.get(e);
                    if (edge.hidden === undefined || edge.hidden === false) \x7b
                        edge.hidden = true;
                        edges.update(edge);
                    \x7d else \x7b
                        edge.hidden = false;
                        edges.update(edge);
                    \x7d
                \x7d);
            \x7d

            // Add event listener for node clicks
            network.on(\"click\", function(params) \x7b
                if (params.nodes.length === 1) \x7b
                    var nodeId = params.nodes[0];
                    toggleNode(nodeId);
                \x7d
            \x7d);
        </script>
        ").toList

/-- The closing body marker searched for at source line 297. -/
def bodyCloseTag : List Char := sl ("</body>")

/-- The needle occurs in the haystack at position i. -/
def occursAtPos (h n : List Char) (i : Nat) : Bool := List.isPrefixOf n (h.drop i)

/-- Python str.rfind: the greatest position at which the needle occurs, or
none (Python returns minus one) when it occurs nowhere. -/
def pyRfind (h n : List Char) : Option Nat :=
  ((List.range (h.length + 1)).reverse).find? (occursAtPos h n)

/-- inject_custom_js (source lines 296 to 307) acting on the document
content: when no closing body marker is found the function returns after
printing a warning, leaving the content untouched; otherwise the script
block is spliced in immediately before the last closing body marker and the
whole content is written back. -/
def inject_custom_js (html : List Char) : List Char :=
  match pyRfind html bodyCloseTag with
  | none => html
  | some i => html.take i ++ customJs ++ html.drop i

/-- Neither end of the string is a quote mark. -/
def noQuoteEnds (t : List Char) : Bool :=
  (t.head? != some '"') && (t.getLast? != some '"')

/-- Clean every attribute value of a data dictionary except the listed
keys, the comparison point for the claim that the builder consumes cleaned
values. -/
def cleanValsExcept (ex : List (List Char)) (d : List (List Char × List Char)) :
    List (List Char × List Char) :=
  d.map fun p => if ex.contains p.1 then p else (p.1, pyStripQuote p.2)

/-- A concrete cluster dictionary with two distinct labels, used to
exhibit the order dependence of the group styles. -/
def c2clustersEx : List (List Char × List Char) := [(sl ("a"), sl ("X")), (sl ("b"), sl ("Y"))]

/-- A concrete parsed graph whose only cluster subgraph sits nested inside
a structural subgraph: the top level holds one subgraph named outer, which
in turn holds the cluster named cluster underscore a containing the node
n. -/
def gNested : SG :=
  .mk (sl ("G")) none []
    [.mk (sl ("outer")) none []
      [.mk (sl ("cluster_a")) none [sl ("n")] []]]

/-- Unfolding lemma of the loop skeleton: one more iteration first applies
the step once. -/
theorem iterN_succ {a : Type} (f : a → a) (k : Nat) (s : a) :
    iterN f (k + 1) s = iterN f k (f s) := rfl

/-- The loop skeleton splits over a sum of iteration counts. -/
theorem iterN_add {a : Type} (f : a → a) (a1 b : Nat) (s : a) :
    iterN f (a1 + b) s = iterN f b (iterN f a1 s) := by
  induction a1 generalizing s with
  | zero => rw [Nat.zero_add]; rfl
  | succ a1 ih => rw [show a1 + 1 + b = (a1 + b) + 1 from by omega, iterN_succ, ih, ← iterN_succ]

/-- First checkpoint of the init_genrand pass. -/
theorem mt_ig_ck1 : iterN igStep 156 ((19650218 : Nat), 1, 19650218) = (mtIG1, 157, 1904872348) := by
  decide

/-- Second checkpoint of the init_genrand pass. -/
theorem mt_ig_ck2 : iterN igStep 312 ((19650218 : Nat), 1, 19650218) = (mtIG2, 313, 142734034) := by
  rw [show (312 : Nat) = 156 + 156 from rfl, iterN_add, mt_ig_ck1]; decide

/-- Third checkpoint of the init_genrand pass. -/
theorem mt_ig_ck3 : iterN igStep 468 ((19650218 : Nat), 1, 19650218) = (mtIG3, 469, 1238578150) := by
  rw [show (468 : Nat) = 312 + 156 from rfl, iterN_add, mt_ig_ck2]; decide

/-- The full init_genrand pass evaluated on the init_by_array base seed. -/
theorem mt_ig_eval : initGenrand 19650218 = mtIG4 := by
  show (iterN igStep 623 ((19650218 : Nat), 1, 19650218)).1 = mtIG4
  rw [show (623 : Nat) = 468 + 155 from rfl, iterN_add, mt_ig_ck3]; decide

/-- First checkpoint of the first init_by_array mixing loop. -/
theorem mt_l1_ck1 : iterN (iba1Step [42]) 156 (mtIG4, 1, 0) = (mtL1A, 157, 0) := by
  decide

/-- Second checkpoint of the first init_by_array mixing loop. -/
theorem mt_l1_ck2 : iterN (iba1Step [42]) 312 (mtIG4, 1, 0) = (mtL1B, 313, 0) := by
  rw [show (312 : Nat) = 156 + 156 from rfl, iterN_add, mt_l1_ck1]; decide

/-- Third checkpoint of the first init_by_array mixing loop. -/
theorem mt_l1_ck3 : iterN (iba1Step [42]) 468 (mtIG4, 1, 0) = (mtL1C, 469, 0) := by
  rw [show (468 : Nat) = 312 + 156 from rfl, iterN_add, mt_l1_ck2]; decide

/-- The full first mixing loop of init_by_array on the key forty-two. -/
theorem mt_l1_eval : iterN (iba1Step [42]) 624 (mtIG4, 1, 0) = (mtL1D, 2, 0) := by
  rw [show (624 : Nat) = 468 + 156 from rfl, iterN_add, mt_l1_ck3]; decide

/-- First checkpoint of the second init_by_array mixing loop. -/
theorem mt_l2_ck1 : iterN iba2Step 156 (mtL1D, 2) = (mtL2A, 158) := by
  decide

/-- Second checkpoint of the second init_by_array mixing loop. -/
theorem mt_l2_ck2 : iterN iba2Step 312 (mtL1D, 2) = (mtL2B, 314) := by
  rw [show (312 : Nat) = 156 + 156 from rfl, iterN_add, mt_l2_ck1]; decide

/-- Third checkpoint of the second init_by_array mixing loop. -/
theorem mt_l2_ck3 : iterN iba2Step 468 (mtL1D, 2) = (mtL2C, 470) := by
  rw [show (468 : Nat) = 312 + 156 from rfl, iterN_add, mt_l2_ck2]; decide

/-- The full second mixing loop of init_by_array on the key forty-two. -/
theorem mt_l2_eval : iterN iba2Step 623 (mtL1D, 2) = (mtL2D, 2) := by
  rw [show (623 : Nat) = 468 + 155 from rfl, iterN_add, mt_l2_ck3]; decide

/-- The packed state produced by random.seed of forty-two. -/
theorem mt_seed_eval : initByArray [42] = mtSeedW := by
  show wset (iterN iba2Step 623 ((iterN (iba1Step [42]) 624 (initGenrand 19650218, 1, 0)).1,
      (iterN (iba1Step [42]) 624 (initGenrand 19650218, 1, 0)).2.1)).1 0 2147483648 = mtSeedW
  rw [mt_ig_eval, mt_l1_eval]
  show wset (iterN iba2Step 623 (mtL1D, 2)).1 0 2147483648 = mtSeedW
  rw [mt_l2_eval]; decide

/-- First checkpoint of the first block regeneration. -/
theorem mt_rg_ck1 : iterN regenStep 156 (mtSeedW, 0) = (mtRGA, 156) := by
  decide

/-- Second checkpoint of the first block regeneration. -/
theorem mt_rg_ck2 : iterN regenStep 312 (mtSeedW, 0) = (mtRGB, 312) := by
  rw [show (312 : Nat) = 156 + 156 from rfl, iterN_add, mt_rg_ck1]; decide

/-- Third checkpoint of the first block regeneration. -/
theorem mt_rg_ck3 : iterN regenStep 468 (mtSeedW, 0) = (mtRGC, 468) := by
  rw [show (468 : Nat) = 312 + 156 from rfl, iterN_add, mt_rg_ck2]; decide

/-- The regenerated block right after seeding. -/
theorem mt_regen_eval : mtRegen mtSeedW = mtRGD := by
  show (iterN regenStep 624 (mtSeedW, 0)).1 = mtRGD
  rw [show (624 : Nat) = 468 + 156 from rfl, iterN_add, mt_rg_ck3]; decide

/-- The first output word drawn after seeding with forty-two. -/
theorem mt_genrand_first : genrandUint32 seededState42 = (2746317213, { mt := mtRGD, mti := 1 }) := by
  have h1 : genrandUint32 seededState42
      = (temper (wget (mtRegen (initByArray [42])) 0),
         { mt := mtRegen (initByArray [42]), mti := 1 }) := rfl
  rw [h1, mt_seed_eval, mt_regen_eval]; decide

/-- Unfolding lemma of the rejection loop on a symbolic state: one more
unit of fuel performs one draw. -/
theorem randbelowLoop_succ (n k fuel : Nat) (s : MTState) :
    randbelowLoop n k (fuel + 1) s
      = (if (getrandbitsK s k).1 < n then some ((getrandbitsK s k).1, (getrandbitsK s k).2)
         else randbelowLoop n k fuel (getrandbitsK s k).2) := rfl

/-- Unfolding lemma of the color loop on a symbolic state: one more color
performs one randint draw. -/
theorem gucLoop_succ (fuel c : Nat) (s : MTState) :
    gucLoop fuel (c + 1) s
      = (match pyRandintColor fuel s with
         | none => none
         | some p => (gucLoop fuel c p.2).map fun rest => hex6 p.1 :: rest) := rfl

/-- Unfolding lemma of getrandbits on a symbolic state. -/
theorem getrandbitsK_def (s : MTState) (k : Nat) :
    getrandbitsK s k = ((genrandUint32 s).1 >>> (32 - k), (genrandUint32 s).2) := rfl

/-- The first randint draw of generate_unique_colors: the first
twenty-five-bit value is rejected, the second accepted. -/
theorem mt_draw1 : pyRandintColor 50 seededState42 = some (3735650, { mt := mtRGD, mti := 2 }) := by
  show randbelowLoop 16777216 25 50 seededState42 = _
  rw [show (50 : Nat) = 49 + 1 from rfl, randbelowLoop_succ]
  rw [getrandbitsK_def, mt_genrand_first]
  decide

/-- The first two colors generate_unique_colors produces: the seed is
fixed, so they are the same in every run. -/
theorem mt_guc_eval : generate_unique_colors 50 2 = some [sl ("#390062"), sl ("#0cce35")] := by
  show gucLoop 50 2 seededState42 = _
  rw [show (2 : Nat) = 1 + 1 from rfl, gucLoop_succ, mt_draw1]
  decide

theorem pyLStrip_head_not (cs : List Char) (s : List Char) :
    ∀ c, (pyLStrip cs s).head? = some c → cs.contains c = false := by
  induction s with
  | nil => intro c h; cases h
  | cons a r ih =>
      intro c h
      by_cases ha : a ∈ cs
      · exact ih c (by simpa [pyLStrip, ha] using h)
      · have hac : a = c := by simpa [pyLStrip, ha] using h
        subst hac
        simpa using ha

theorem pyLStrip_of_head_not (cs : List Char) (s : List Char)
    (h : ∀ c, s.head? = some c → cs.contains c = false) : pyLStrip cs s = s := by
  cases s with
  | nil => rfl
  | cons a r =>
      have := h a rfl
      simp [pyLStrip, this]
      intro hmem
      simp [hmem] at this

theorem pyLStrip_split (cs : List Char) (s : List Char) :
    ∃ pre, s = pre ++ pyLStrip cs s ∧ ∀ c ∈ pre, cs.contains c = true := by
  induction s with
  | nil => exact ⟨[], rfl, by simp⟩
  | cons a r ih =>
      by_cases ha : a ∈ cs
      · obtain ⟨pre, hpre, hall⟩ := ih
        refine ⟨a :: pre, ?_, ?_⟩
        · simpa [pyLStrip, ha] using hpre
        · intro c hc
          rcases List.mem_cons.mp hc with hc | hc
          · subst hc; simpa using ha
          · exact hall c hc
      · exact ⟨[], by simp [pyLStrip, ha], by simp⟩

theorem pyStrip_split (cs : List Char) (s : List Char) :
    ∃ pre suf, s = pre ++ pyStrip cs s ++ suf
      ∧ (∀ c ∈ pre, cs.contains c = true) ∧ ∀ c ∈ suf, cs.contains c = true := by
  obtain ⟨pre, hpre, hallp⟩ := pyLStrip_split cs s
  obtain ⟨pre2, hpre2, hallp2⟩ := pyLStrip_split cs (pyLStrip cs s).reverse
  refine ⟨pre, pre2.reverse, ?_, hallp, ?_⟩
  · have hu : pyLStrip cs s = (pyStrip cs s) ++ pre2.reverse := by
      have h2 : (pyLStrip cs s).reverse.reverse
          = (pre2 ++ pyLStrip cs (pyLStrip cs s).reverse).reverse := by rw [← hpre2]
      simpa [pyStrip, List.reverse_append] using h2
    conv_lhs => rw [hpre, hu]
    simp [List.append_assoc]
  · intro c hc
    exact hallp2 c (by simpa using hc)

theorem pyStrip_getLast_not (cs : List Char) (s : List Char) :
    ∀ c, (pyStrip cs s).getLast? = some c → cs.contains c = false := by
  intro c h
  apply pyLStrip_head_not cs (pyLStrip cs s).reverse c
  have h2 := h
  simp only [pyStrip] at h2
  rwa [List.getLast?_reverse] at h2

theorem pyStrip_head_not (cs : List Char) (s : List Char) :
    ∀ c, (pyStrip cs s).head? = some c → cs.contains c = false := by
  intro c h
  obtain ⟨pre2, hpre2, -⟩ := pyLStrip_split cs (pyLStrip cs s).reverse
  have hu : pyLStrip cs s = pyStrip cs s ++ pre2.reverse := by
    have h2 : (pyLStrip cs s).reverse.reverse
        = (pre2 ++ pyLStrip cs (pyLStrip cs s).reverse).reverse := by rw [← hpre2]
    simpa [pyStrip, List.reverse_append] using h2
  apply pyLStrip_head_not cs s c
  rw [hu]
  cases hst : pyStrip cs s with
  | nil => rw [hst] at h; cases h
  | cons b t =>
      rw [hst] at h
      simpa using h

theorem pyStrip_of_no_ends (cs : List Char) (t : List Char)
    (hh : ∀ c, t.head? = some c → cs.contains c = false)
    (hl : ∀ c, t.getLast? = some c → cs.contains c = false) :
    pyStrip cs t = t := by
  have h1 : pyLStrip cs t = t := pyLStrip_of_head_not cs t hh
  have h2 : pyLStrip cs t.reverse = t.reverse := by
    apply pyLStrip_of_head_not
    intro c hc
    exact hl c (by rwa [List.head?_reverse] at hc)
  simp [pyStrip, h1, h2]

theorem pyStrip_idem (cs : List Char) (s : List Char) :
    pyStrip cs (pyStrip cs s) = pyStrip cs s :=
  pyStrip_of_no_ends cs (pyStrip cs s) (pyStrip_head_not cs s) (pyStrip_getLast_not cs s)

theorem pyStripQuote_idem (s : List Char) :
    pyStripQuote (pyStripQuote s) = pyStripQuote s := pyStrip_idem quoteChars s

/-- Claim C9: the cleaning function is idempotent, cleaning an already
cleaned value changes nothing. -/
theorem c9_clean_attribute_idempotent (v : PyVal) :
    clean_attribute (clean_attribute v) = clean_attribute v := by
  cases v with
  | pstr s => simp [clean_attribute, pyStripQuote_idem]
  | pyNone => rfl
  | pint n => rfl
  | plist xs => rfl

theorem noQuoteEnds_of_strip (s : List Char) : noQuoteEnds (pyStripQuote s) = true := by
  have hh := pyStrip_head_not quoteChars s
  have hl := pyStrip_getLast_not quoteChars s
  simp only [noQuoteEnds, pyStripQuote, Bool.and_eq_true, bne_iff_ne, ne_eq]
  constructor
  · cases hc : (pyStrip quoteChars s).head? with
    | none => simp [hc]
    | some c =>
        have := hh c hc
        simp [quoteChars] at this
        simp [hc, this]
  · cases hc : (pyStrip quoteChars s).getLast? with
    | none => simp [hc]
    | some c =>
        have := hl c hc
        simp [quoteChars] at this
        simp [hc, this]

/-- Claim C1 (amended): cleaning a string removes the maximal run of
leading quote marks and the maximal run of trailing quote marks, not one
pair, and leaves every non-string value unchanged. -/
theorem c1_clean_attribute_strips_all_quotes :
    (∀ s : List Char, ∃ k m t, s = List.replicate k '"' ++ t ++ List.replicate m '"'
        ∧ clean_attribute (PyVal.pstr s) = PyVal.pstr t ∧ noQuoteEnds t = true)
    ∧ ∀ v : PyVal, isPStr v = false → clean_attribute v = v := by
  constructor
  · intro s
    obtain ⟨pre, suf, hsplit, hpre, hsuf⟩ := pyStrip_split quoteChars s
    refine ⟨pre.length, suf.length, pyStripQuote s, ?_, rfl, noQuoteEnds_of_strip s⟩
    have hpre2 : pre = List.replicate pre.length '"' := by
      apply List.eq_replicate_of_mem
      intro b hb
      have := hpre b hb
      simpa [quoteChars] using this
    have hsuf2 : suf = List.replicate suf.length '"' := by
      apply List.eq_replicate_of_mem
      intro b hb
      have := hsuf b hb
      simpa [quoteChars] using this
    rw [← hpre2, ← hsuf2]
    exact hsplit
  · intro v hv
    cases v with
    | pstr s => simp [isPStr] at hv
    | pyNone => rfl
    | pint n => rfl
    | plist xs => rfl

/-- Claim C1 (counterexample): on a doubly quoted string the cleaning
function removes both pairs, not only the outermost one. -/
theorem c1_counterexample :
    clean_attribute (PyVal.pstr (sl ("\"\"Alpha\"\""))) = PyVal.pstr (sl ("Alpha"))
    ∧ clean_attribute (PyVal.pstr (sl ("\"\"Alpha\"\""))) ≠ PyVal.pstr (sl ("\"Alpha\"")) := by
  decide

/-- Claim C10: after a subgraph node name has been stripped of quote
marks, the result never both starts and ends with a quote mark, so the
slicing branch is dead and the normalization is the plain strip. -/
theorem c10_requote_branch_unreachable (s : List Char) :
    normalizeSubgraphNodeName s = pyStripQuote s := by
  have hfalse : startsWithQuoteB (pyStripQuote s) = false := by
    cases hc : (pyStripQuote s).head? with
    | none => simp [startsWithQuoteB, hc]
    | some c =>
        have := pyStrip_head_not quoteChars s c hc
        simp [quoteChars] at this
        simp [startsWithQuoteB, hc, this]
  simp [normalizeSubgraphNodeName, hfalse]

theorem nodes_foldl_append (nodes : List (List Char)) (lbl : List Char)
    (m : List (List Char × List Char)) :
    nodes.foldl (fun m2 n => m2 ++ [(normalizeSubgraphNodeName n, lbl)]) m
      = m ++ nodes.map fun n => (normalizeSubgraphNodeName n, lbl) := by
  induction nodes generalizing m with
  | nil => simp
  | cons n r ih => simp [ih]

theorem subgraphClustersStep_some (m : List (List Char × List Char)) (sub : SG) :
    subgraphClustersStep (some m) sub = (clusterPairsOf sub).map fun ps => m ++ ps := by
  simp only [subgraphClustersStep, clusterPairsOf, Option.bind_some]
  by_cases hc : isClusterName (pyStripQuote sub.name) = true
  · simp only [hc, if_true]
    cases hr : resolveLabel sub.label (pyStripQuote sub.name) with
    | none => simp
    | some lbl => simp [nodes_foldl_append]
  · simp only [Bool.not_eq_true] at hc
    simp [hc]

theorem foldl_step_none (subs : List SG) :
    subs.foldl subgraphClustersStep none = none := by
  induction subs with
  | nil => rfl
  | cons s r ih => simpa [subgraphClustersStep] using ih

theorem foldl_step_closed (subs : List SG) (m : List (List Char × List Char)) :
    subs.foldl subgraphClustersStep (some m)
      = (directClusterPairsList subs).map fun ls => m ++ ls := by
  induction subs generalizing m with
  | nil => simp [directClusterPairsList]
  | cons sub r ih =>
      rw [List.foldl_cons, subgraphClustersStep_some]
      cases hs : clusterPairsOf sub with
      | none => simpa [directClusterPairsList, hs] using foldl_step_none r
      | some ps =>
          cases hr : directClusterPairsList r with
          | none => simp [directClusterPairsList, hs, hr, ih]
          | some rest => simp [directClusterPairsList, hs, hr, ih, List.append_assoc]

/-- Claim C3 (amended): the cluster map equals the concatenation of the
per-subgraph contributions of the subgraphs directly contained in the
parsed graph, each contributing exactly its directly contained nodes:
nothing at deeper nesting levels is scanned. -/
theorem c3_amended_direct_level_only (g : SG) :
    subgraphClusters g = directClusterPairs g := by
  show g.subs.foldl subgraphClustersStep (some []) = _
  rw [foldl_step_closed]
  cases h : directClusterPairsList g.subs with
  | none => simp [directClusterPairs, h]
  | some ls => simp [directClusterPairs, h]

/-- Claim C3 (counterexample): in a graph whose only cluster subgraph is
nested one level deeper, the code builds an empty cluster map, while the
recursive scan of the claim maps the nested node to the cluster name. -/
theorem c3_counterexample :
    subgraphClusters gNested = some []
    ∧ pyDictGet (specClusterMapRecursive gNested) (sl ("n")) = some (sl ("cluster_a")) := by
  constructor
  · rfl
  · rfl

theorem pyDictGet_cons {b : Type} (p : List Char × b) (r : List (List Char × b)) (k : List Char) :
    pyDictGet (p :: r) k
      = match pyDictGet r k with
        | some v => some v
        | none => if p.1 == k then some p.2 else none := rfl

theorem cleanValsExcept_cons (ex : List (List Char)) (p : List Char × List Char)
    (d : List (List Char × List Char)) :
    cleanValsExcept ex (p :: d)
      = (if ex.contains p.1 then p else (p.1, pyStripQuote p.2)) :: cleanValsExcept ex d := rfl

theorem pyDictGet_cleanValsExcept_mem (ex : List (List Char))
    (d : List (List Char × List Char)) (k : List Char) (hk : k ∈ ex) :
    pyDictGet (cleanValsExcept ex d) k = pyDictGet d k := by
  induction d with
  | nil => rfl
  | cons p r ih =>
      rw [cleanValsExcept_cons, pyDictGet_cons, pyDictGet_cons, ih]
      cases pyDictGet r k with
      | some v => rfl
      | none =>
          by_cases hp : p.1 ∈ ex
          · simp [hp]
          · by_cases he : p.1 = k
            · subst he
              exact absurd hk hp
            · simp [hp, he]

theorem pyDictGet_cleanValsExcept_not_mem (ex : List (List Char))
    (d : List (List Char × List Char)) (k : List Char) (hk : k ∉ ex) :
    pyDictGet (cleanValsExcept ex d) k = (pyDictGet d k).map pyStripQuote := by
  induction d with
  | nil => rfl
  | cons p r ih =>
      rw [cleanValsExcept_cons, pyDictGet_cons, pyDictGet_cons, ih]
      cases pyDictGet r k with
      | some v => rfl
      | none =>
          by_cases he : p.1 = k
          · subst he
            simp [hk]
          · by_cases hp : p.1 ∈ ex
            · simp [hp, he]
            · simp [hp, he]

theorem strip_of_cleaned_getD (o : Option (List Char)) (d : List Char) :
    pyStripQuote ((o.map pyStripQuote).getD d) = pyStripQuote (o.getD d) := by
  cases o with
  | none => rfl
  | some v => simp [pyStripQuote_idem]

theorem isSome_map_strip (o : Option (List Char)) :
    (o.map pyStripQuote).isSome = o.isSome := by
  cases o <;> rfl

/-- Claim C4 (amended): every attribute consumed by the scene builder is
consumed through the cleaning function, except the node shape attribute,
which line 137 of the source compares raw: pre-cleaning every node
attribute other than shape changes nothing, and pre-cleaning every edge
attribute changes nothing. -/
theorem c4_amended_all_but_shape_cleaned :
    (∀ clusters nodeName data,
        buildNode clusters nodeName (cleanValsExcept [sl ("shape")] data)
          = buildNode clusters nodeName data)
    ∧ ∀ s t data, buildEdge s t (cleanValsExcept [] data) = buildEdge s t data := by
  constructor
  · intro clusters nodeName data
    have hsh : pyDictGet (cleanValsExcept [sl ("shape")] data) (sl ("shape"))
        = pyDictGet data (sl ("shape")) :=
      pyDictGet_cleanValsExcept_mem _ _ _ (by decide)
    have hl := fun k hk => pyDictGet_cleanValsExcept_not_mem [sl ("shape")] data k hk
    simp only [buildNode, hsh, hl (sl ("label")) (by decide), hl (sl ("tooltip")) (by decide),
      hl (sl ("URL")) (by decide), hl (sl ("fillcolor")) (by decide),
      hl (sl ("fontname")) (by decide), hl (sl ("fontsize")) (by decide),
      strip_of_cleaned_getD, isSome_map_strip]
  · intro s t data
    have hl := fun k hk => pyDictGet_cleanValsExcept_not_mem [] data k hk
    simp only [buildEdge, hl (sl ("tooltip")) (by decide), hl (sl ("color")) (by decide),
      hl (sl ("arrowhead")) (by decide), hl (sl ("style")) (by decide),
      hl (sl ("penwidth")) (by decide), strip_of_cleaned_getD]

/-- Claim C4 (counterexample): the node shape attribute is consumed raw,
not cleaned: a quoted box value renders as an ellipse although its cleaned
value is the literal box, which renders as a box. -/
theorem c4_counterexample :
    (buildNode [] (sl ("n")) [(sl ("shape"), sl ("\"box\""))]).shape = sl ("ellipse")
    ∧ pyStripQuote (sl ("\"box\"")) = sl ("box")
    ∧ (buildNode [] (sl ("n")) [(sl ("shape"), sl ("box"))]).shape = sl ("box") := by
  decide

/-- Claim C5: the visual fill color is the cleaned fillcolor attribute
exactly when the attribute is present, even when its value is empty, and
the fixed default exactly when it is absent: presence, not truthiness,
decides. -/
theorem c5_fillcolor_presence_not_truthiness
    (clusters : List (List Char × List Char)) (nodeName : List Char)
    (data : List (List Char × List Char)) :
    (buildNode clusters nodeName data).color
      = match pyDictGet data (sl ("fillcolor")) with
        | some v => pyStripQuote v
        | none => defaultFillColor := by
  cases h : pyDictGet data (sl ("fillcolor")) with
  | none => simp [buildNode, h]
  | some v => simp [buildNode, h]

theorem pyFloat_one_point_zero : pyFloat (sl ("1.0")) = some 1 := by
  show some (((1 : Nat) : ℚ) + ((0 : Nat) : ℚ) / (10 : ℚ) ^ (1 : Nat)) = some 1
  norm_num

/-- Claim C7: the visual line width is the penwidth attribute parsed as a
float when parsing succeeds, and exactly one when the attribute is absent
or fails to parse, the failure being swallowed by the fallback. -/
theorem c7_penwidth_float_or_default (s t : List Char)
    (data : List (List Char × List Char)) :
    ((buildEdge s t data).width
      = match pyDictGet data (sl ("penwidth")) with
        | some v => (pyFloat (pyStripQuote v)).getD 1
        | none => 1)
    ∧ (buildEdge s t [(sl ("penwidth"), sl ("bogus"))]).width = 1 := by
  constructor
  · cases h : pyDictGet data (sl ("penwidth")) with
    | none =>
        have hd : pyStripQuote (sl ("1.0")) = sl ("1.0") := by decide
        simp only [buildEdge, h, Option.getD_none, hd, pyFloat_one_point_zero]
    | some v =>
        simp only [buildEdge, h, Option.getD_some]
        cases hf : pyFloat (pyStripQuote v) <;> simp [hf]
  · have hb : pyStripQuote (sl ("bogus")) = sl ("bogus") := by decide
    have hn : pyFloat (sl ("bogus")) = none := by rfl
    simp only [buildEdge, pyDictGet, Option.getD_some, hb, hn]
    decide

/-- Claim C8: the visual shape is a closed two-value mapping, box exactly
when the raw shape attribute is the literal box and ellipse in every other
case, never a pass-through. -/
theorem c8_shape_closed_two_values
    (clusters : List (List Char × List Char)) (nodeName : List Char)
    (data : List (List Char × List Char)) :
    ((buildNode clusters nodeName data).shape = sl ("box")
        ∨ (buildNode clusters nodeName data).shape = sl ("ellipse"))
    ∧ ((buildNode clusters nodeName data).shape = sl ("box")
        ↔ pyDictGet data (sl ("shape")) = some (sl ("box"))) := by
  have hbeq : ((pyDictGet data (sl ("shape")) == some (sl ("box"))) = true)
      ↔ pyDictGet data (sl ("shape")) = some (sl ("box")) := beq_iff_eq
  by_cases hb : (pyDictGet data (sl ("shape")) == some (sl ("box"))) = true
  · have hshape : (buildNode clusters nodeName data).shape = sl ("box") := by
      simp [buildNode, hb]
    refine ⟨Or.inl hshape, ?_⟩
    rw [hshape]
    simp [hbeq.mp hb]
  · have hb2 : (pyDictGet data (sl ("shape")) == some (sl ("box"))) = false := by
      simpa using hb
    have hshape : (buildNode clusters nodeName data).shape = sl ("ellipse") := by
      simp [buildNode, hb2]
    refine ⟨Or.inr hshape, ?_⟩
    rw [hshape]
    constructor
    · intro he
      exact absurd he (by decide)
    · intro hp
      exact absurd (hbeq.mpr hp) hb

theorem isPrefixOf_length_le : ∀ l1 l2 : List Char, List.isPrefixOf l1 l2 = true →
    l1.length ≤ l2.length
  | [], l2, _ => by simp
  | a :: r, [], h => by cases h
  | a :: r, b :: t, h => by
      have h2 : List.isPrefixOf r t = true := by
        have hand := h
        simp only [List.isPrefixOf, Bool.and_eq_true] at hand
        exact hand.2
      simpa using isPrefixOf_length_le r t h2

theorem occursAtPos_le_len (h n : List Char) (i : Nat) (hn : n ≠ [])
    (hocc : occursAtPos h n i = true) : i ≤ h.length := by
  have hlen : n.length ≤ (h.drop i).length := by
    apply isPrefixOf_length_le
    simpa [occursAtPos] using hocc
  rw [List.length_drop] at hlen
  have hpos : 0 < n.length := List.length_pos.mpr hn
  omega

theorem find?_max_sorted (p : Nat → Bool) :
    ∀ l : List Nat, l.Pairwise (fun x y => y < x) → ∀ a, l.find? p = some a →
      ∀ j ∈ l, p j = true → j ≤ a := by
  intro l
  induction l with
  | nil => intro _ a ha; cases ha
  | cons x r ih =>
      intro hp a hfind j hj hpj
      have hx := (List.pairwise_cons.mp hp).1
      have hr := (List.pairwise_cons.mp hp).2
      by_cases hpx : p x = true
      · rw [List.find?_cons_of_pos _ hpx] at hfind
        have hax : a = x := by injection hfind with h2; exact h2.symm
        subst hax
        rcases List.mem_cons.mp hj with hj | hj
        · exact le_of_eq hj
        · exact le_of_lt (hx j hj)
      · have hpx2 : p x = false := by simpa using hpx
        rw [List.find?_cons_of_neg _ (by simp [hpx2])] at hfind
        rcases List.mem_cons.mp hj with hj | hj
        · subst hj
          rw [hpj] at hpx2
          cases hpx2
        · exact ih hr a hfind j hj hpj

/-- Claim C6: when the document holds no closing body marker, injection
returns it byte for byte unchanged; otherwise the script block is spliced
in immediately before the last occurrence of the marker. -/
theorem c6_injection_before_last_marker (html : List Char) :
    (pyRfind html bodyCloseTag = none →
        inject_custom_js html = html ∧ ∀ j, occursAtPos html bodyCloseTag j = false)
    ∧ ∀ i, pyRfind html bodyCloseTag = some i →
        inject_custom_js html = html.take i ++ customJs ++ html.drop i
        ∧ occursAtPos html bodyCloseTag i = true
        ∧ ∀ j, occursAtPos html bodyCloseTag j = true → j ≤ i := by
  constructor
  · intro hn
    refine ⟨by simp [inject_custom_js, hn], ?_⟩
    intro j
    by_contra hj
    have hj2 : occursAtPos html bodyCloseTag j = true := by simpa using hj
    have hle : j ≤ html.length := occursAtPos_le_len _ _ _ (by decide) hj2
    have hmem : j ∈ (List.range (html.length + 1)).reverse := by
      rw [List.mem_reverse, List.mem_range]
      omega
    have hnone := hn
    simp only [pyRfind] at hnone
    exact (List.find?_eq_none.mp hnone j hmem) hj2
  · intro i hi
    have hi2 := hi
    simp only [pyRfind] at hi2
    refine ⟨by simp [inject_custom_js, hi], List.find?_some hi2, ?_⟩
    intro j hj
    have hsorted : ((List.range (html.length + 1)).reverse).Pairwise (fun x y => y < x) := by
      rw [List.pairwise_reverse]
      simpa [Function.flip_def] using List.pairwise_lt_range (html.length + 1)
    have hle : j ≤ html.length := occursAtPos_le_len _ _ _ (by decide) hj
    have hmem : j ∈ (List.range (html.length + 1)).reverse := by
      rw [List.mem_reverse, List.mem_range]
      omega
    exact find?_max_sorted _ _ hsorted i hi2 j hmem hj

/-- Claim C2: the colors are seeded deterministically, but the mapping
from labels to colors follows the order in which the set of labels is
iterated: two enumerations of the same two-label set yield different
mappings, because the first two seeded colors differ. CPython iterates a
set of strings in a per-process hash-randomized order, so two runs over
the same cluster dictionary need not produce the same mapping. -/
theorem c2_group_styles_follow_set_order :
    isSetEnumOf [sl ("X"), sl ("Y")] c2clustersEx = true
    ∧ isSetEnumOf [sl ("Y"), sl ("X")] c2clustersEx = true
    ∧ generate_group_styles [sl ("X"), sl ("Y")] 50
        = some [(sl ("X"), { background := sl ("#390062"), border := borderColor }),
                (sl ("Y"), { background := sl ("#0cce35"), border := borderColor })]
    ∧ generate_group_styles [sl ("Y"), sl ("X")] 50
        = some [(sl ("Y"), { background := sl ("#390062"), border := borderColor }),
                (sl ("X"), { background := sl ("#0cce35"), border := borderColor })] := by
  refine ⟨by decide, by decide, ?_, ?_⟩
  · have h : generate_group_styles [sl ("X"), sl ("Y")] 50
        = (generate_unique_colors 50 2).map fun colors =>
            ([sl ("X"), sl ("Y")].zip colors).map fun p =>
              (p.1, { background := p.2, border := borderColor }) := rfl
    rw [h, mt_guc_eval]
    decide
  · have h : generate_group_styles [sl ("Y"), sl ("X")] 50
        = (generate_unique_colors 50 2).map fun colors =>
            ([sl ("Y"), sl ("X")].zip colors).map fun p =>
              (p.1, { background := p.2, border := borderColor }) := rfl
    rw [h, mt_guc_eval]
    decide
